import Mathlib

/-!
Verification development for the GreenLogix cogeneration-plant repository.

The Python sources are shallowly embedded: the scenario data model and its
JSON-like persistence documents become Lean structures over association
lists, the component-graph assembly becomes an explicit connection-list
state, and the batch driver becomes a fold over scenario names with an
abstract run oracle.  Python dictionaries are modelled as association
lists with unique keys and insertion-order append semantics; Python
floats/ints appearing in scenario records are modelled as rationals
(no float arithmetic is performed by the embedded code paths).
-/

namespace GreenLogix

/-- Association list keyed by strings, modelling a Python dict
(insertion ordered, unique keys). -/
abbrev AList (α : Type) := List (String × α)

/-- Dictionary lookup: value of the first entry with the given key. -/
def lookupA {α : Type} : AList α → String → Option α
  | [], _ => none
  | (k', v) :: rest, k => cond (k' == k) (some v) (lookupA rest k)

/-- Membership test, modelling the Python expression (key in dict). -/
def containsKey {α : Type} (d : AList α) (k : String) : Bool :=
  (lookupA d k).isSome

/-- Dictionary assignment d[k] = v: replace in place when the key is
present, append at the end otherwise. -/
def dictSet {α : Type} : AList α → String → α → AList α
  | [], k, v => [(k, v)]
  | (k', v') :: rest, k, v =>
    cond (k' == k) ((k, v) :: rest) ((k', v') :: dictSet rest k v)

/-- Python dict.update(m): assign every entry of m into d, in order. -/
def dictUpdate {α : Type} (d m : AList α) : AList α :=
  m.foldl (fun acc kv => dictSet acc kv.1 kv.2) d

/-- Python del d[k]: remove the entry with the given key. -/
def eraseKey {α : Type} : AList α → String → AList α
  | [], _ => []
  | (k', v) :: rest, k => cond (k' == k) rest ((k', v) :: eraseKey rest k)

/-- Keys of a dictionary, in order. -/
def keysOf {α : Type} (d : AList α) : List String := d.map Prod.fst

/-- Boolean membership test on a list of keys. -/
def memKey (k : String) : List String → Bool
  | [] => false
  | k' :: rest => cond (k' == k) true (memKey k rest)

/-- Boolean test that a list of keys has no duplicates. -/
def keysDistinct : List String → Bool
  | [] => true
  | k :: rest => !(memKey k rest) && keysDistinct rest

theorem beq_false_of_ne {α : Type} [BEq α] [LawfulBEq α] {a b : α}
    (h : a ≠ b) : (a == b) = false := by
  cases hab : a == b
  · rfl
  · exact absurd (eq_of_beq hab) h

theorem lookupA_append {α : Type} (d₁ d₂ : AList α) (k : String) :
    lookupA (d₁ ++ d₂) k =
      match lookupA d₁ k with
      | some v => some v
      | none => lookupA d₂ k := by
  induction d₁ with
  | nil => simp [lookupA]
  | cons hd tl ih =>
    obtain ⟨k', v⟩ := hd
    by_cases h : k' = k
    · simp [lookupA, h]
    · simp [lookupA, beq_false_of_ne h, ih]

theorem lookupA_singleton_ne {α : Type} (k' k : String) (v : α) (h : k' ≠ k) :
    lookupA [(k', v)] k = none := by
  simp [lookupA, beq_false_of_ne h]

theorem lookupA_singleton_self {α : Type} (k : String) (v : α) :
    lookupA [(k, v)] k = some v := by
  simp [lookupA]

theorem containsKey_append {α : Type} (d₁ d₂ : AList α) (k : String) :
    containsKey (d₁ ++ d₂) k = (containsKey d₁ k || containsKey d₂ k) := by
  simp only [containsKey, lookupA_append]
  cases lookupA d₁ k <;> simp

theorem keysOf_append {α : Type} (d₁ d₂ : AList α) :
    keysOf (d₁ ++ d₂) = keysOf d₁ ++ keysOf d₂ := by
  simp [keysOf]

theorem memKey_iff_mem (k : String) (l : List String) :
    memKey k l = true ↔ k ∈ l := by
  induction l with
  | nil => simp [memKey]
  | cons k' rest ih =>
    by_cases h : k' = k
    · simp [memKey, h]
    · have h2 : ¬k = k' := fun hk => h hk.symm
      simp [memKey, beq_false_of_ne h, ih, h2]

theorem memKey_eq_false_iff (k : String) (l : List String) :
    memKey k l = false ↔ k ∉ l := by
  rw [← memKey_iff_mem]
  cases memKey k l <;> simp

theorem keysDistinct_iff_nodup (l : List String) :
    keysDistinct l = true ↔ l.Nodup := by
  induction l with
  | nil => simp [keysDistinct]
  | cons k rest ih =>
    simp [keysDistinct, List.nodup_cons, ih, Bool.and_eq_true,
      Bool.not_eq_true', memKey_eq_false_iff]

/-- Dynamic JSON-like value appearing in a persisted scenario document
(a Python object stored in a dict: a string, a number, or None). -/
inductive DVal where
  | str : String → DVal
  | num : ℚ → DVal
  | null : DVal
deriving DecidableEq

/-- Modelled from the spec: the dispatch-engine option enum BuilderType is
declared in the external model_to_flex package (not under this repository's
sources); only the member the repository uses (PYOMO, the dataclass
default) is modelled, together with the Python enum law that the string
constructor inverts member.value. -/
inductive BuilderType where
  | PYOMO
deriving DecidableEq

/-- Modelled from the spec: the dispatch-engine option enum SolverType of
the external model_to_flex package; only the member the repository uses
(CBC, the dataclass default) is modelled. -/
inductive SolverType where
  | CBC
deriving DecidableEq

/-- Modelled from the spec: the dispatch-engine option enum DispatchType of
the external model_to_flex package; only the member the repository uses
(MONTHLY, the dataclass default) is modelled. -/
inductive DispatchType where
  | MONTHLY
deriving DecidableEq

/-- String value carried by a BuilderType member (Python member.value). -/
def BuilderType.value : BuilderType → String
  | .PYOMO => "pyomo"

/-- Python enum string constructor BuilderType(x): succeeds on a member
value, raises ValueError otherwise. -/
def BuilderType.ofDVal : DVal → Except String BuilderType
  | .str s => cond (s == "pyomo") (.ok .PYOMO) (.error "ValueError: BuilderType")
  | _ => .error "ValueError: BuilderType"

/-- String value carried by a SolverType member (Python member.value). -/
def SolverType.value : SolverType → String
  | .CBC => "cbc"

/-- Python enum string constructor SolverType(x). -/
def SolverType.ofDVal : DVal → Except String SolverType
  | .str s => cond (s == "cbc") (.ok .CBC) (.error "ValueError: SolverType")
  | _ => .error "ValueError: SolverType"

/-- String value carried by a DispatchType member (Python member.value). -/
def DispatchType.value : DispatchType → String
  | .MONTHLY => "monthly"

/-- Python enum string constructor DispatchType(x). -/
def DispatchType.ofDVal : DVal → Except String DispatchType
  | .str s => cond (s == "monthly") (.ok .MONTHLY) (.error "ValueError: DispatchType")
  | _ => .error "ValueError: DispatchType"

/-- Scenario dataclass of simulation/scenarios.py.  Numeric fields are
modelled as rationals (the embedded code paths never perform float
rounding on them).  The created_at field is a plain string because
Scenario.__post_init__ replaces a missing value with the current
timestamp, so a constructed Scenario always carries one. -/
structure Scenario where
  name : String
  description : String
  price_starttime : String
  demand_starttime : String
  length : ℚ
  gas_turbine_minload_electricity_capacity : ℚ
  gas_turbine_maxload_electricity_capacity : ℚ
  gas_turbine_minload_electricity_efficiency : ℚ
  gas_turbine_maxload_electricity_efficiency : ℚ
  gas_turbine_minload_heat_efficiency : ℚ
  gas_turbine_maxload_heat_efficiency : ℚ
  gas_boiler_efficiency : ℚ
  gas_boiler_capacity : ℚ
  e_boiler_efficiency : ℚ
  e_boiler_capacity : ℚ
  hrsg_efficiency : ℚ
  hrsg_capacity : ℚ
  elec_offtake_contract_param_a : ℚ
  elec_offtake_contract_param_b : ℚ
  elec_injection_contract_param_a : ℚ
  elec_injection_contract_param_b : ℚ
  elec_grid_cost_energy : ℚ
  elec_grid_cost_power_peak : ℚ
  elec_grid_cost_power_fixed : ℚ
  elec_grid_cost_max_tariff : ℚ
  elec_offtake_tax_energy : ℚ
  gas_offtake_contract_param_a : ℚ
  gas_offtake_contract_param_b : ℚ
  gas_grid_cost_energy : ℚ
  freq : String
  optimizer_type : String
  builder_type : BuilderType
  solver : SolverType
  dispatch_type : DispatchType
  pred_hor : ℚ
  contr_hor : ℚ
  created_at : String
  results_path : Option String
deriving DecidableEq

/-- Shape of a persisted scenario document: the flat top-level dict plus
the three nested dicts that Scenario.from_dict pops from it
(dispatch_options, metadata, and the legacy equipment_params). -/
structure ScenarioDoc where
  top : AList DVal
  dispatch_options : Option (AList DVal)
  metadata : Option (AList DVal)
  equipment_params : Option (AList DVal)
deriving DecidableEq

/-- Serialization of None-or-string (results_path). -/
def optStrVal : Option String → DVal
  | some s => .str s
  | none => .null

/-- Scenario.to_dict of simulation/scenarios.py. -/
def Scenario.to_dict (s : Scenario) : ScenarioDoc :=
  { top :=
      [("name", .str s.name),
       ("description", .str s.description),
       ("price_starttime", .str s.price_starttime),
       ("demand_starttime", .str s.demand_starttime),
       ("length", .num s.length),
       ("freq", .str s.freq),
       ("gas_turbine_minload_electricity_capacity", .num s.gas_turbine_minload_electricity_capacity),
       ("gas_turbine_maxload_electricity_capacity", .num s.gas_turbine_maxload_electricity_capacity),
       ("gas_turbine_minload_electricity_efficiency", .num s.gas_turbine_minload_electricity_efficiency),
       ("gas_turbine_maxload_electricity_efficiency", .num s.gas_turbine_maxload_electricity_efficiency),
       ("gas_turbine_minload_heat_efficiency", .num s.gas_turbine_minload_heat_efficiency),
       ("gas_turbine_maxload_heat_efficiency", .num s.gas_turbine_maxload_heat_efficiency),
       ("gas_boiler_efficiency", .num s.gas_boiler_efficiency),
       ("gas_boiler_capacity", .num s.gas_boiler_capacity),
       ("e_boiler_efficiency", .num s.e_boiler_efficiency),
       ("e_boiler_capacity", .num s.e_boiler_capacity),
       ("hrsg_efficiency", .num s.hrsg_efficiency),
       ("hrsg_capacity", .num s.hrsg_capacity),
       ("elec_offtake_contract_param_a", .num s.elec_offtake_contract_param_a),
       ("elec_offtake_contract_param_b", .num s.elec_offtake_contract_param_b),
       ("elec_injection_contract_param_a", .num s.elec_injection_contract_param_a),
       ("elec_injection_contract_param_b", .num s.elec_injection_contract_param_b),
       ("elec_grid_cost_energy", .num s.elec_grid_cost_energy),
       ("elec_grid_cost_power_peak", .num s.elec_grid_cost_power_peak),
       ("elec_grid_cost_power_fixed", .num s.elec_grid_cost_power_fixed),
       ("elec_grid_cost_max_tariff", .num s.elec_grid_cost_max_tariff),
       ("elec_offtake_tax_energy", .num s.elec_offtake_tax_energy),
       ("gas_offtake_contract_param_a", .num s.gas_offtake_contract_param_a),
       ("gas_offtake_contract_param_b", .num s.gas_offtake_contract_param_b),
       ("gas_grid_cost_energy", .num s.gas_grid_cost_energy)],
    dispatch_options := some
      [("optimizer_type", .str s.optimizer_type),
       ("builder_type", .str s.builder_type.value),
       ("solver", .str s.solver.value),
       ("dispatch_type", .str s.dispatch_type.value),
       ("pred_hor", .num s.pred_hor),
       ("contr_hor", .num s.contr_hor)],
    metadata := some
      [("created_at", .str s.created_at),
       ("results_path", optStrVal s.results_path)],
    equipment_params := none }

/-- Dictionary access d[k], raising KeyError when absent. -/
def keyOrErr (d : AList DVal) (k : String) : Except String DVal :=
  match lookupA d k with
  | some v => .ok v
  | none => .error ("KeyError: " ++ k)

/-- Required dataclass keyword of string kind: missing raises TypeError
(missing required positional argument). -/
def reqStr (kw : AList DVal) (k : String) : Except String String :=
  match lookupA kw k with
  | some (.str s) => .ok s
  | some _ => .error ("TypeError: " ++ k)
  | none => .error ("TypeError: missing required argument " ++ k)

/-- Required dataclass keyword of numeric kind. -/
def reqNum (kw : AList DVal) (k : String) : Except String ℚ :=
  match lookupA kw k with
  | some (.num q) => .ok q
  | some _ => .error ("TypeError: " ++ k)
  | none => .error ("TypeError: missing required argument " ++ k)

/-- Optional dataclass keyword of string kind with a default. -/
def optStr (kw : AList DVal) (k : String) (d : String) : Except String String :=
  match lookupA kw k with
  | some (.str s) => .ok s
  | some _ => .error ("TypeError: " ++ k)
  | none => .ok d

/-- Optional dataclass keyword of numeric kind with a default. -/
def optNum (kw : AList DVal) (k : String) (d : ℚ) : Except String ℚ :=
  match lookupA kw k with
  | some (.num q) => .ok q
  | some _ => .error ("TypeError: " ++ k)
  | none => .ok d

/-- Created-at keyword: a missing or None value is replaced by the current
timestamp in Scenario.__post_init__. -/
def optCreated (kw : AList DVal) (now : String) : Except String String :=
  match lookupA kw "created_at" with
  | some (.str s) => .ok s
  | some .null => .ok now
  | some _ => .error "TypeError: created_at"
  | none => .ok now

/-- Results-path keyword: absent or None both yield the None default. -/
def optResults (kw : AList DVal) : Except String (Option String) :=
  match lookupA kw "results_path" with
  | some (.str s) => .ok (some s)
  | some .null => .ok none
  | some _ => .error "TypeError: results_path"
  | none => .ok none

/-- Default values that Scenario.from_dict inserts for missing newer
parameters (lines 126 to 139 of simulation/scenarios.py). -/
def scenarioDefaults : AList DVal :=
  [("elec_offtake_contract_param_a", .num 1),
   ("elec_offtake_contract_param_b", .num 0),
   ("elec_injection_contract_param_a", .num 1),
   ("elec_injection_contract_param_b", .num 0),
   ("elec_grid_cost_energy", .num 0),
   ("elec_grid_cost_power_peak", .num 0),
   ("elec_grid_cost_power_fixed", .num 0),
   ("elec_grid_cost_max_tariff", .num 0),
   ("elec_offtake_tax_energy", .num 0),
   ("gas_offtake_contract_param_a", .num 1),
   ("gas_offtake_contract_param_b", .num 0),
   ("gas_grid_cost_energy", .num 0)]

/-- Fold of a defaults loop: for key, default in ds, if key not in data
then data[key] = default (appending at the end). -/
def insertMissing (d ds : AList DVal) : AList DVal :=
  ds.foldl (fun acc kv => cond (containsKey acc kv.1) acc (acc ++ [kv])) d

/-- Defaults loop of Scenario.from_dict over the documented defaults. -/
def applyDefaults (d : AList DVal) : AList DVal :=
  insertMissing d scenarioDefaults

/-- Names of all Scenario dataclass fields; any other keyword passed to
the constructor raises TypeError (unexpected keyword argument). -/
def scenarioFieldNames : List String :=
  ["name", "description", "price_starttime", "demand_starttime", "length",
   "gas_turbine_minload_electricity_capacity",
   "gas_turbine_maxload_electricity_capacity",
   "gas_turbine_minload_electricity_efficiency",
   "gas_turbine_maxload_electricity_efficiency",
   "gas_turbine_minload_heat_efficiency",
   "gas_turbine_maxload_heat_efficiency",
   "gas_boiler_efficiency", "gas_boiler_capacity",
   "e_boiler_efficiency", "e_boiler_capacity",
   "hrsg_efficiency", "hrsg_capacity",
   "elec_offtake_contract_param_a", "elec_offtake_contract_param_b",
   "elec_injection_contract_param_a", "elec_injection_contract_param_b",
   "elec_grid_cost_energy", "elec_grid_cost_power_peak",
   "elec_grid_cost_power_fixed", "elec_grid_cost_max_tariff",
   "elec_offtake_tax_energy",
   "gas_offtake_contract_param_a", "gas_offtake_contract_param_b",
   "gas_grid_cost_energy",
   "freq", "optimizer_type", "builder_type", "solver", "dispatch_type",
   "pred_hor", "contr_hor", "created_at", "results_path"]

/-- Boolean check that every key in a keyword list is a Scenario field
name (otherwise the dataclass constructor raises TypeError). -/
def allValid : List String → Bool
  | [] => true
  | k :: rest => memKey k scenarioFieldNames && allValid rest

/-- Field-reading tail of Scenario.from_dict: the dataclass constructor
call cls(**data, **dispatch_options, **metadata) reading each field from
the merged keyword dictionary (enum fields passed through separately,
already converted). -/
def buildScenario (kw : AList DVal) (bt : BuilderType) (sol : SolverType)
    (dt : DispatchType) (now : String) : Except String Scenario := do
  let name ← reqStr kw "name"
  let description ← reqStr kw "description"
  let price_starttime ← reqStr kw "price_starttime"
  let demand_starttime ← reqStr kw "demand_starttime"
  let length ← reqNum kw "length"
  let f1 ← reqNum kw "gas_turbine_minload_electricity_capacity"
  let f2 ← reqNum kw "gas_turbine_maxload_electricity_capacity"
  let f3 ← reqNum kw "gas_turbine_minload_electricity_efficiency"
  let f4 ← reqNum kw "gas_turbine_maxload_electricity_efficiency"
  let f5 ← reqNum kw "gas_turbine_minload_heat_efficiency"
  let f6 ← reqNum kw "gas_turbine_maxload_heat_efficiency"
  let f7 ← reqNum kw "gas_boiler_efficiency"
  let f8 ← reqNum kw "gas_boiler_capacity"
  let f9 ← reqNum kw "e_boiler_efficiency"
  let f10 ← reqNum kw "e_boiler_capacity"
  let f11 ← reqNum kw "hrsg_efficiency"
  let f12 ← reqNum kw "hrsg_capacity"
  let g1 ← reqNum kw "elec_offtake_contract_param_a"
  let g2 ← reqNum kw "elec_offtake_contract_param_b"
  let g3 ← reqNum kw "elec_injection_contract_param_a"
  let g4 ← reqNum kw "elec_injection_contract_param_b"
  let g5 ← reqNum kw "elec_grid_cost_energy"
  let g6 ← reqNum kw "elec_grid_cost_power_peak"
  let g7 ← reqNum kw "elec_grid_cost_power_fixed"
  let g8 ← reqNum kw "elec_grid_cost_max_tariff"
  let g9 ← reqNum kw "elec_offtake_tax_energy"
  let g10 ← reqNum kw "gas_offtake_contract_param_a"
  let g11 ← reqNum kw "gas_offtake_contract_param_b"
  let g12 ← reqNum kw "gas_grid_cost_energy"
  let freq ← optStr kw "freq" "h"
  let optimizer_type ← optStr kw "optimizer_type" "default"
  let pred_hor ← optNum kw "pred_hor" 768
  let contr_hor ← optNum kw "contr_hor" 768
  let created_at ← optCreated kw now
  let results_path ← optResults kw
  pure
    { name := name, description := description,
      price_starttime := price_starttime,
      demand_starttime := demand_starttime, length := length,
      gas_turbine_minload_electricity_capacity := f1,
      gas_turbine_maxload_electricity_capacity := f2,
      gas_turbine_minload_electricity_efficiency := f3,
      gas_turbine_maxload_electricity_efficiency := f4,
      gas_turbine_minload_heat_efficiency := f5,
      gas_turbine_maxload_heat_efficiency := f6,
      gas_boiler_efficiency := f7, gas_boiler_capacity := f8,
      e_boiler_efficiency := f9, e_boiler_capacity := f10,
      hrsg_efficiency := f11, hrsg_capacity := f12,
      elec_offtake_contract_param_a := g1,
      elec_offtake_contract_param_b := g2,
      elec_injection_contract_param_a := g3,
      elec_injection_contract_param_b := g4,
      elec_grid_cost_energy := g5,
      elec_grid_cost_power_peak := g6,
      elec_grid_cost_power_fixed := g7,
      elec_grid_cost_max_tariff := g8,
      elec_offtake_tax_energy := g9,
      gas_offtake_contract_param_a := g10,
      gas_offtake_contract_param_b := g11,
      gas_grid_cost_energy := g12,
      freq := freq, optimizer_type := optimizer_type,
      builder_type := bt, solver := sol, dispatch_type := dt,
      pred_hor := pred_hor, contr_hor := contr_hor,
      created_at := created_at, results_path := results_path }

/-- Scenario.from_dict of simulation/scenarios.py.  The now argument
stands for datetime.now() used by __post_init__ when created_at is
absent.  Failures of the Python code (KeyError on dispatch options,
ValueError from the enum constructors, TypeError from the dataclass
constructor) are Except errors. -/
def Scenario.from_dict (doc : ScenarioDoc) (now : String) : Except String Scenario := do
  let dopts := doc.dispatch_options.getD []
  let meta := doc.metadata.getD []
  let eqp := doc.equipment_params.getD []
  let data0 := cond eqp.isEmpty doc.top (dictUpdate doc.top eqp)
  let bt ← BuilderType.ofDVal (← keyOrErr dopts "builder_type")
  let sol ← SolverType.ofDVal (← keyOrErr dopts "solver")
  let dt ← DispatchType.ofDVal (← keyOrErr dopts "dispatch_type")
  let data := applyDefaults data0
  let allKeys := keysOf data ++ keysOf dopts ++ keysOf meta
  cond (keysDistinct allKeys)
    (cond (allValid allKeys)
      (buildScenario (data ++ dopts ++ meta) bt sol dt now)
      (.error "TypeError: unexpected keyword argument"))
    (.error "TypeError: multiple values for keyword argument")

theorem exceptOk_bind {ε α β : Type} (a : α) (f : α → Except ε β) :
    (Except.ok a : Except ε α) >>= f = f a := rfl

theorem exceptPure_eq_ok {ε α : Type} (a : α) :
    (pure a : Except ε α) = Except.ok a := rfl

theorem insertMissing_all_present (ds d : AList DVal)
    (h : ∀ kv ∈ ds, containsKey d kv.1 = true) :
    insertMissing d ds = d := by
  induction ds generalizing d with
  | nil => rfl
  | cons kv₀ rest ih =>
    have h₀ : containsKey d kv₀.1 = true := h kv₀ (by simp)
    simp only [insertMissing, List.foldl_cons, h₀, cond_true]
    exact ih d (fun kv hkv => h kv (by simp [hkv]))

theorem lookupA_cond_insert (d : AList DVal) (k₀ k : String) (v₀ : DVal)
    (h : k₀ ≠ k) :
    lookupA (cond (containsKey d k₀) d (d ++ [(k₀, v₀)])) k = lookupA d k := by
  cases containsKey d k₀ with
  | true => rfl
  | false =>
    simp only [cond_false, lookupA_append]
    rw [lookupA_singleton_ne _ _ _ h]
    cases lookupA d k <;> rfl

theorem lookupA_insertMissing_not_mem (ds d : AList DVal) (k : String)
    (h : lookupA ds k = none) :
    lookupA (insertMissing d ds) k = lookupA d k := by
  induction ds generalizing d with
  | nil => rfl
  | cons kv₀ rest ih =>
    obtain ⟨k₀, v₀⟩ := kv₀
    by_cases hk : k₀ = k
    · exfalso
      simp [lookupA, hk] at h
    · simp only [lookupA, beq_false_of_ne hk, cond_false] at h
      simp only [insertMissing, List.foldl_cons]
      have := ih (cond (containsKey d k₀) d (d ++ [(k₀, v₀)])) h
      simp only [insertMissing] at this
      rw [this, lookupA_cond_insert _ _ _ _ hk]

theorem lookupA_insertMissing_mem (ds d : AList DVal) (k : String) (v : DVal)
    (hmem : lookupA ds k = some v)
    (hdis : keysDistinct (keysOf ds) = true) :
    lookupA (insertMissing d ds) k = some ((lookupA d k).getD v) := by
  induction ds generalizing d with
  | nil => simp [lookupA] at hmem
  | cons kv₀ rest ih =>
    obtain ⟨k₀, v₀⟩ := kv₀
    simp only [keysOf, List.map_cons, keysDistinct, Bool.and_eq_true,
      Bool.not_eq_true', memKey_eq_false_iff] at hdis
    by_cases hk : k₀ = k
    · subst hk
      simp only [lookupA, beq_self_eq_true, cond_true, Option.some.injEq] at hmem
      subst hmem
      have hrest : lookupA rest k₀ = none := by
        rcases hlr : lookupA rest k₀ with _ | w
        · rfl
        · exfalso
          apply hdis.1
          clear hdis ih
          induction rest with
          | nil => simp [lookupA] at hlr
          | cons kv₁ tail ih₂ =>
            obtain ⟨k₁, v₁⟩ := kv₁
            by_cases hk₁ : k₁ = k₀
            · simp [keysOf, hk₁]
            · simp only [lookupA, beq_false_of_ne hk₁, cond_false] at hlr
              simp [keysOf] at ih₂ ⊢
              exact Or.inr (ih₂ hlr)
      simp only [insertMissing, List.foldl_cons]
      have hstep := lookupA_insertMissing_not_mem rest
        (cond (containsKey d k₀) d (d ++ [(k₀, v₀)])) k₀ hrest
      simp only [insertMissing] at hstep
      rw [hstep]
      cases hc : containsKey d k₀ with
      | true =>
        simp only [cond_true]
        rcases ho : lookupA d k₀ with _ | w
        · simp [containsKey, ho] at hc
        · simp [ho]
      | false =>
        have ho : lookupA d k₀ = none := by
          rcases ho : lookupA d k₀ with _ | w
          · rfl
          · simp [containsKey, ho] at hc
        simp only [cond_false, lookupA_append, ho, lookupA_singleton_self]
        simp [ho]
    · simp only [lookupA, beq_false_of_ne hk, cond_false] at hmem
      simp only [insertMissing, List.foldl_cons]
      have := ih (cond (containsKey d k₀) d (d ++ [(k₀, v₀)])) hmem hdis.2
      simp only [insertMissing] at this
      rw [this, lookupA_cond_insert _ _ _ _ hk]

theorem applyDefaults_all_present
    (v1 v2 v3 v4 v5 v6 v7 v8 v9 v10 v11 v12 v13 v14 v15 v16 v17 v18 v19 v20
     v21 v22 v23 v24 v25 v26 v27 v28 v29 v30 : DVal) :
    applyDefaults
      [("name", v1), ("description", v2), ("price_starttime", v3),
       ("demand_starttime", v4), ("length", v5), ("freq", v6),
       ("gas_turbine_minload_electricity_capacity", v7),
       ("gas_turbine_maxload_electricity_capacity", v8),
       ("gas_turbine_minload_electricity_efficiency", v9),
       ("gas_turbine_maxload_electricity_efficiency", v10),
       ("gas_turbine_minload_heat_efficiency", v11),
       ("gas_turbine_maxload_heat_efficiency", v12),
       ("gas_boiler_efficiency", v13), ("gas_boiler_capacity", v14),
       ("e_boiler_efficiency", v15), ("e_boiler_capacity", v16),
       ("hrsg_efficiency", v17), ("hrsg_capacity", v18),
       ("elec_offtake_contract_param_a", v19),
       ("elec_offtake_contract_param_b", v20),
       ("elec_injection_contract_param_a", v21),
       ("elec_injection_contract_param_b", v22),
       ("elec_grid_cost_energy", v23), ("elec_grid_cost_power_peak", v24),
       ("elec_grid_cost_power_fixed", v25), ("elec_grid_cost_max_tariff", v26),
       ("elec_offtake_tax_energy", v27),
       ("gas_offtake_contract_param_a", v28),
       ("gas_offtake_contract_param_b", v29),
       ("gas_grid_cost_energy", v30)] =
      [("name", v1), ("description", v2), ("price_starttime", v3),
       ("demand_starttime", v4), ("length", v5), ("freq", v6),
       ("gas_turbine_minload_electricity_capacity", v7),
       ("gas_turbine_maxload_electricity_capacity", v8),
       ("gas_turbine_minload_electricity_efficiency", v9),
       ("gas_turbine_maxload_electricity_efficiency", v10),
       ("gas_turbine_minload_heat_efficiency", v11),
       ("gas_turbine_maxload_heat_efficiency", v12),
       ("gas_boiler_efficiency", v13), ("gas_boiler_capacity", v14),
       ("e_boiler_efficiency", v15), ("e_boiler_capacity", v16),
       ("hrsg_efficiency", v17), ("hrsg_capacity", v18),
       ("elec_offtake_contract_param_a", v19),
       ("elec_offtake_contract_param_b", v20),
       ("elec_injection_contract_param_a", v21),
       ("elec_injection_contract_param_b", v22),
       ("elec_grid_cost_energy", v23), ("elec_grid_cost_power_peak", v24),
       ("elec_grid_cost_power_fixed", v25), ("elec_grid_cost_max_tariff", v26),
       ("elec_offtake_tax_energy", v27),
       ("gas_offtake_contract_param_a", v28),
       ("gas_offtake_contract_param_b", v29),
       ("gas_grid_cost_energy", v30)] := by
  apply insertMissing_all_present
  intro kv hkv
  simp only [scenarioDefaults, List.mem_cons, List.not_mem_nil, or_false] at hkv
  rcases hkv with rfl | rfl | rfl | rfl | rfl | rfl | rfl | rfl | rfl | rfl | rfl | rfl <;>
    simp [containsKey, lookupA]

/-- Names of all keys of a document produced by Scenario.to_dict, in
storage order (top-level fields, then dispatch options, then metadata). -/
def allDocKeys : List String :=
  ["name", "description", "price_starttime", "demand_starttime", "length",
   "freq",
   "gas_turbine_minload_electricity_capacity",
   "gas_turbine_maxload_electricity_capacity",
   "gas_turbine_minload_electricity_efficiency",
   "gas_turbine_maxload_electricity_efficiency",
   "gas_turbine_minload_heat_efficiency",
   "gas_turbine_maxload_heat_efficiency",
   "gas_boiler_efficiency", "gas_boiler_capacity",
   "e_boiler_efficiency", "e_boiler_capacity",
   "hrsg_efficiency", "hrsg_capacity",
   "elec_offtake_contract_param_a", "elec_offtake_contract_param_b",
   "elec_injection_contract_param_a", "elec_injection_contract_param_b",
   "elec_grid_cost_energy", "elec_grid_cost_power_peak",
   "elec_grid_cost_power_fixed", "elec_grid_cost_max_tariff",
   "elec_offtake_tax_energy",
   "gas_offtake_contract_param_a", "gas_offtake_contract_param_b",
   "gas_grid_cost_energy",
   "optimizer_type", "builder_type", "solver", "dispatch_type",
   "pred_hor", "contr_hor", "created_at", "results_path"]

theorem allDocKeys_distinct : keysDistinct allDocKeys = true := by
  simp [allDocKeys, keysDistinct, memKey]

theorem allDocKeys_valid : allValid allDocKeys = true := by
  simp [allDocKeys, allValid, memKey, scenarioFieldNames]

theorem from_dict_parts (top dopts meta : AList DVal) (now : String)
    {top' : AList DVal} {bv sv dv : DVal} {bt : BuilderType}
    {sol : SolverType} {dt : DispatchType} {sc : Scenario}
    (hb1 : lookupA dopts "builder_type" = some bv)
    (hb2 : BuilderType.ofDVal bv = .ok bt)
    (hs1 : lookupA dopts "solver" = some sv)
    (hs2 : SolverType.ofDVal sv = .ok sol)
    (hd1 : lookupA dopts "dispatch_type" = some dv)
    (hd2 : DispatchType.ofDVal dv = .ok dt)
    (hdef : applyDefaults top = top')
    (hkeys : keysDistinct (keysOf top' ++ keysOf dopts ++ keysOf meta) = true)
    (hvalid : allValid (keysOf top' ++ keysOf dopts ++ keysOf meta) = true)
    (hbuild : buildScenario (top' ++ dopts ++ meta) bt sol dt now = .ok sc) :
    Scenario.from_dict ⟨top, some dopts, some meta, none⟩ now = .ok sc := by
  simp only [Scenario.from_dict, Option.getD_some, Option.getD_none,
    List.isEmpty_nil, cond_true, keyOrErr, hb1, hs1, hd1, hb2, hs2, hd2,
    exceptOk_bind, hdef, hkeys, hvalid, hbuild]

theorem buildScenario_parts (kw : AList DVal) (bt : BuilderType)
    (sol : SolverType) (dt : DispatchType) (now : String)
    {nm de pst dst fr ot ca : String}
    {len f1 f2 f3 f4 f5 f6 f7 f8 f9 f10 f11 f12 : ℚ}
    {g1 g2 g3 g4 g5 g6 g7 g8 g9 g10 g11 g12 ph ch : ℚ}
    {rp : Option String}
    (h1 : reqStr kw "name" = .ok nm)
    (h2 : reqStr kw "description" = .ok de)
    (h3 : reqStr kw "price_starttime" = .ok pst)
    (h4 : reqStr kw "demand_starttime" = .ok dst)
    (h5 : reqNum kw "length" = .ok len)
    (h6 : reqNum kw "gas_turbine_minload_electricity_capacity" = .ok f1)
    (h7 : reqNum kw "gas_turbine_maxload_electricity_capacity" = .ok f2)
    (h8 : reqNum kw "gas_turbine_minload_electricity_efficiency" = .ok f3)
    (h9 : reqNum kw "gas_turbine_maxload_electricity_efficiency" = .ok f4)
    (h10 : reqNum kw "gas_turbine_minload_heat_efficiency" = .ok f5)
    (h11 : reqNum kw "gas_turbine_maxload_heat_efficiency" = .ok f6)
    (h12 : reqNum kw "gas_boiler_efficiency" = .ok f7)
    (h13 : reqNum kw "gas_boiler_capacity" = .ok f8)
    (h14 : reqNum kw "e_boiler_efficiency" = .ok f9)
    (h15 : reqNum kw "e_boiler_capacity" = .ok f10)
    (h16 : reqNum kw "hrsg_efficiency" = .ok f11)
    (h17 : reqNum kw "hrsg_capacity" = .ok f12)
    (h18 : reqNum kw "elec_offtake_contract_param_a" = .ok g1)
    (h19 : reqNum kw "elec_offtake_contract_param_b" = .ok g2)
    (h20 : reqNum kw "elec_injection_contract_param_a" = .ok g3)
    (h21 : reqNum kw "elec_injection_contract_param_b" = .ok g4)
    (h22 : reqNum kw "elec_grid_cost_energy" = .ok g5)
    (h23 : reqNum kw "elec_grid_cost_power_peak" = .ok g6)
    (h24 : reqNum kw "elec_grid_cost_power_fixed" = .ok g7)
    (h25 : reqNum kw "elec_grid_cost_max_tariff" = .ok g8)
    (h26 : reqNum kw "elec_offtake_tax_energy" = .ok g9)
    (h27 : reqNum kw "gas_offtake_contract_param_a" = .ok g10)
    (h28 : reqNum kw "gas_offtake_contract_param_b" = .ok g11)
    (h29 : reqNum kw "gas_grid_cost_energy" = .ok g12)
    (h30 : optStr kw "freq" "h" = .ok fr)
    (h31 : optStr kw "optimizer_type" "default" = .ok ot)
    (h32 : optNum kw "pred_hor" 768 = .ok ph)
    (h33 : optNum kw "contr_hor" 768 = .ok ch)
    (h34 : optCreated kw now = .ok ca)
    (h35 : optResults kw = .ok rp) :
    buildScenario kw bt sol dt now =
      .ok ⟨nm, de, pst, dst, len, f1, f2, f3, f4, f5, f6, f7, f8, f9, f10,
        f11, f12, g1, g2, g3, g4, g5, g6, g7, g8, g9, g10, g11, g12,
        fr, ot, bt, sol, dt, ph, ch, ca, rp⟩ := by
  simp only [buildScenario, h1, h2, h3, h4, h5, h6, h7, h8, h9, h10, h11,
    h12, h13, h14, h15, h16, h17, h18, h19, h20, h21, h22, h23, h24, h25,
    h26, h27, h28, h29, h30, h31, h32, h33, h34, h35, exceptOk_bind,
    exceptPure_eq_ok]

set_option maxHeartbeats 1000000 in
/-- C1: for every Scenario instance S, Scenario.from_dict (S.to_dict())
reproduces every field of S bit-for-bit; the enum-typed fields
(builder_type, solver, dispatch_type) are serialized as their string
value, reconstructed through the enum string constructor, and compare
equal by value to the originals.  Stated as an exact round trip on the
embedded Scenario record. -/
theorem c1_scenario_roundtrip (s : Scenario) (now : String) :
    Scenario.from_dict s.to_dict now = .ok s := by
  cases s with
  | mk n d pst dst len c1 c2 c3 c4 c5 c6 c7 c8 c9 c10 c11 c12 p1 p2 p3 p4 p5 p6 p7 p8 p9 p10 p11 p12 fr ot bt sol dt ph ch ca rp =>
    cases bt
    cases sol
    cases dt
    cases rp <;>
    · simp only [Scenario.to_dict, BuilderType.value, SolverType.value,
        DispatchType.value, optStrVal]
      refine from_dict_parts _ _ _ _ rfl rfl rfl rfl rfl rfl
        (by apply applyDefaults_all_present) ?_ ?_ ?_
      · simpa only [keysOf_append, keysOf, List.map_cons, List.map_nil,
          List.cons_append, List.nil_append, allDocKeys]
          using allDocKeys_distinct
      · simpa only [keysOf_append, keysOf, List.map_cons, List.map_nil,
          List.cons_append, List.nil_append, allDocKeys]
          using allDocKeys_valid
      · apply buildScenario_parts <;>
          simp only [reqStr, reqNum, optStr, optNum, optCreated, optResults,
            List.cons_append, List.nil_append, lookupA, String.reduceBEq,
            beq_self_eq_true, cond_true, cond_false]

end GreenLogix

namespace GreenLogix

/-- Entry list contributed by an optional stored field: one entry when the
field is stored, nothing when it is missing. -/
def optEntry (k : String) (o : Option ℚ) : AList DVal :=
  match o with
  | some q => [(k, .num q)]
  | none => []

theorem lookupA_optEntry (k' k : String) (o : Option ℚ) :
    lookupA (optEntry k' o) k = cond (k' == k) (o.map DVal.num) none := by
  cases o <;> cases h : k' == k <;> simp [optEntry, lookupA, h]

theorem keysOf_optEntry_sublist (k : String) (o : Option ℚ) :
    List.Sublist (keysOf (optEntry k o)) [k] := by
  cases o with
  | none => exact List.nil_sublist _
  | some q => exact List.Sublist.refl _

theorem lookupA_eq_none_iff {α : Type} (d : AList α) (k : String) :
    lookupA d k = none ↔ k ∉ keysOf d := by
  induction d with
  | nil => simp [lookupA, keysOf]
  | cons hd tl ih =>
    obtain ⟨k', v⟩ := hd
    by_cases h : k' = k
    · simp [lookupA, h, keysOf]
    · have h2 : ¬k = k' := fun hk => h hk.symm
      simp [lookupA, beq_false_of_ne h, keysOf, ih, h2]

theorem not_mem_keys_of_containsKey_false {α : Type} (d : AList α)
    (k : String) (h : containsKey d k = false) : k ∉ keysOf d := by
  rw [← lookupA_eq_none_iff]
  rcases hl : lookupA d k with _ | w
  · rfl
  · simp [containsKey, hl] at h

theorem mem_keysOf_insertMissing (ds d : AList DVal) (k : String)
    (h : k ∈ keysOf (insertMissing d ds)) :
    k ∈ keysOf d ∨ k ∈ keysOf ds := by
  induction ds generalizing d with
  | nil => exact Or.inl h
  | cons kv₀ rest ih =>
    obtain ⟨k₀, v₀⟩ := kv₀
    simp only [insertMissing, List.foldl_cons] at h
    have h2 := ih (cond (containsKey d k₀) d (d ++ [(k₀, v₀)]))
      (by simpa only [insertMissing] using h)
    rcases h2 with h2 | h2
    · cases hc : containsKey d k₀ with
      | true =>
        rw [hc, cond_true] at h2
        exact Or.inl h2
      | false =>
        rw [hc, cond_false, keysOf_append] at h2
        rcases List.mem_append.mp h2 with h3 | h3
        · exact Or.inl h3
        · simp only [keysOf, List.map_cons, List.map_nil,
            List.mem_singleton] at h3
          subst h3
          exact Or.inr (by simp only [keysOf, List.map_cons]; exact List.mem_cons_self _ _)
    · exact Or.inr (by simp only [keysOf, List.map_cons]; exact List.mem_cons_of_mem _ h2)

theorem nodup_insertMissing (ds d : AList DVal) (R : List String)
    (hbase : (keysOf d ++ R).Nodup)
    (hdsR : ∀ k ∈ keysOf ds, k ∉ R) :
    (keysOf (insertMissing d ds) ++ R).Nodup := by
  induction ds generalizing d with
  | nil => exact hbase
  | cons kv₀ rest ih =>
    obtain ⟨k₀, v₀⟩ := kv₀
    simp only [insertMissing, List.foldl_cons]
    have hstep : (keysOf (cond (containsKey d k₀) d (d ++ [(k₀, v₀)])) ++ R).Nodup := by
      cases hc : containsKey d k₀ with
      | true => exact hbase
      | false =>
        have hk₀d : k₀ ∉ keysOf d := not_mem_keys_of_containsKey_false d k₀ hc
        have hk₀R : k₀ ∉ R := hdsR k₀ (by simp [keysOf])
        simp only [cond_false, keysOf_append]
        have hform : keysOf d ++ keysOf [(k₀, v₀)] ++ R =
            keysOf d ++ k₀ :: R := by
          simp [keysOf]
        rw [hform, List.nodup_middle]
        exact List.nodup_cons.mpr ⟨by simp [List.mem_append, hk₀d, hk₀R], hbase⟩
    have h3 := ih (cond (containsKey d k₀) d (d ++ [(k₀, v₀)])) hstep
      (fun k hk => hdsR k (by simp [keysOf] at hk ⊢; exact Or.inr hk))
    simpa only [insertMissing] using h3

theorem allValid_eq_true_iff (l : List String) :
    allValid l = true ↔ ∀ k ∈ l, memKey k scenarioFieldNames = true := by
  induction l with
  | nil => simp [allValid]
  | cons k rest ih =>
    simp [allValid, Bool.and_eq_true, ih]

theorem scenarioDefaults_keys_distinct :
    keysDistinct (keysOf scenarioDefaults) = true := by
  simp [scenarioDefaults, keysOf, keysDistinct, memKey]

theorem getD_map_num (o : Option ℚ) (q : ℚ) :
    (o.map DVal.num).getD (DVal.num q) = DVal.num (o.getD q) := by
  cases o <;> rfl

theorem lookupA_insertMissing (ds d : AList DVal) (k : String)
    (hdis : keysDistinct (keysOf ds) = true) :
    lookupA (insertMissing d ds) k =
      match lookupA ds k with
      | none => lookupA d k
      | some v => some ((lookupA d k).getD v) := by
  rcases h : lookupA ds k with _ | v
  · exact lookupA_insertMissing_not_mem ds d k h
  · exact lookupA_insertMissing_mem ds d k v h hdis

/-- Stored scenario document top-level record with the twelve newer
optional fields each independently present or missing: the shape of a
scenarios.json record written before some of the newer parameters
existed. -/
def storedTop (nm de pst dst : String)
    (len e1 e2 e3 e4 e5 e6 e7 e8 e9 e10 e11 e12 : ℚ)
    (o1 o2 o3 o4 o5 o6 o7 o8 o9 o10 o11 o12 : Option ℚ) : AList DVal :=
  [("name", .str nm), ("description", .str de),
   ("price_starttime", .str pst), ("demand_starttime", .str dst),
   ("length", .num len),
   ("gas_turbine_minload_electricity_capacity", .num e1),
   ("gas_turbine_maxload_electricity_capacity", .num e2),
   ("gas_turbine_minload_electricity_efficiency", .num e3),
   ("gas_turbine_maxload_electricity_efficiency", .num e4),
   ("gas_turbine_minload_heat_efficiency", .num e5),
   ("gas_turbine_maxload_heat_efficiency", .num e6),
   ("gas_boiler_efficiency", .num e7), ("gas_boiler_capacity", .num e8),
   ("e_boiler_efficiency", .num e9), ("e_boiler_capacity", .num e10),
   ("hrsg_efficiency", .num e11), ("hrsg_capacity", .num e12)] ++
  (optEntry "elec_offtake_contract_param_a" o1 ++
   (optEntry "elec_offtake_contract_param_b" o2 ++
    (optEntry "elec_injection_contract_param_a" o3 ++
     (optEntry "elec_injection_contract_param_b" o4 ++
      (optEntry "elec_grid_cost_energy" o5 ++
       (optEntry "elec_grid_cost_power_peak" o6 ++
        (optEntry "elec_grid_cost_power_fixed" o7 ++
         (optEntry "elec_grid_cost_max_tariff" o8 ++
          (optEntry "elec_offtake_tax_energy" o9 ++
           (optEntry "gas_offtake_contract_param_a" o10 ++
            (optEntry "gas_offtake_contract_param_b" o11 ++
             optEntry "gas_grid_cost_energy" o12)))))))))))

/-- Stored scenario document wrapping storedTop with stored dispatch
options and metadata. -/
def storedScenarioDoc (nm de pst dst : String)
    (len e1 e2 e3 e4 e5 e6 e7 e8 e9 e10 e11 e12 : ℚ)
    (o1 o2 o3 o4 o5 o6 o7 o8 o9 o10 o11 o12 : Option ℚ)
    (ot : String) (ph ch : ℚ) (ca : String) : ScenarioDoc :=
  { top := storedTop nm de pst dst len e1 e2 e3 e4 e5 e6 e7 e8 e9 e10 e11 e12
      o1 o2 o3 o4 o5 o6 o7 o8 o9 o10 o11 o12,
    dispatch_options := some
      [("optimizer_type", .str ot), ("builder_type", .str "pyomo"),
       ("solver", .str "cbc"), ("dispatch_type", .str "monthly"),
       ("pred_hor", .num ph), ("contr_hor", .num ch)],
    metadata := some
      [("created_at", .str ca), ("results_path", .null)],
    equipment_params := none }

/-- Keys of the stored top-level record when all twelve newer fields are
present. -/
def storedBaseKeys : List String :=
  ["name", "description", "price_starttime", "demand_starttime", "length",
   "gas_turbine_minload_electricity_capacity",
   "gas_turbine_maxload_electricity_capacity",
   "gas_turbine_minload_electricity_efficiency",
   "gas_turbine_maxload_electricity_efficiency",
   "gas_turbine_minload_heat_efficiency",
   "gas_turbine_maxload_heat_efficiency",
   "gas_boiler_efficiency", "gas_boiler_capacity",
   "e_boiler_efficiency", "e_boiler_capacity",
   "hrsg_efficiency", "hrsg_capacity",
   "elec_offtake_contract_param_a", "elec_offtake_contract_param_b",
   "elec_injection_contract_param_a", "elec_injection_contract_param_b",
   "elec_grid_cost_energy", "elec_grid_cost_power_peak",
   "elec_grid_cost_power_fixed", "elec_grid_cost_max_tariff",
   "elec_offtake_tax_energy",
   "gas_offtake_contract_param_a", "gas_offtake_contract_param_b",
   "gas_grid_cost_energy"]

/-- All keys a stored scenario document can carry (top-level fields,
dispatch options, metadata). -/
def storedDocKeys : List String :=
  storedBaseKeys ++
  ["optimizer_type", "builder_type", "solver", "dispatch_type",
   "pred_hor", "contr_hor", "created_at", "results_path"]

theorem storedBaseKeys_valid : allValid storedBaseKeys = true := by
  simp [storedBaseKeys, allValid, memKey, scenarioFieldNames]

theorem storedDocKeys_distinct : keysDistinct storedDocKeys = true := by
  simp [storedDocKeys, storedBaseKeys, keysDistinct, memKey]

theorem storedTop_keys_sublist (nm de pst dst : String)
    (len e1 e2 e3 e4 e5 e6 e7 e8 e9 e10 e11 e12 : ℚ)
    (o1 o2 o3 o4 o5 o6 o7 o8 o9 o10 o11 o12 : Option ℚ) :
    List.Sublist
      (keysOf (storedTop nm de pst dst len e1 e2 e3 e4 e5 e6 e7 e8 e9 e10
        e11 e12 o1 o2 o3 o4 o5 o6 o7 o8 o9 o10 o11 o12))
      storedBaseKeys := by
  simp only [storedTop, keysOf_append]
  exact List.Sublist.append (List.Sublist.refl _)
    (List.Sublist.append (keysOf_optEntry_sublist _ _)
      (List.Sublist.append (keysOf_optEntry_sublist _ _)
        (List.Sublist.append (keysOf_optEntry_sublist _ _)
          (List.Sublist.append (keysOf_optEntry_sublist _ _)
            (List.Sublist.append (keysOf_optEntry_sublist _ _)
              (List.Sublist.append (keysOf_optEntry_sublist _ _)
                (List.Sublist.append (keysOf_optEntry_sublist _ _)
                  (List.Sublist.append (keysOf_optEntry_sublist _ _)
                    (List.Sublist.append (keysOf_optEntry_sublist _ _)
                      (List.Sublist.append (keysOf_optEntry_sublist _ _)
                        (List.Sublist.append (keysOf_optEntry_sublist _ _)
                          (keysOf_optEntry_sublist _ _))))))))))))

theorem scenarioDefaults_keys_valid :
    allValid (keysOf scenarioDefaults) = true := by
  simp [scenarioDefaults, keysOf, allValid, memKey, scenarioFieldNames]

end GreenLogix

namespace GreenLogix

set_option maxHeartbeats 2000000 in
/-- C2: a stored scenario dictionary in which any subset of the twelve
newer optional fields is missing loads successfully through
Scenario.from_dict, the missing fields receiving the documented defaults
(1.0 for the three contract param_a fields, 0.0 for the rest) while the
present fields keep their stored values. -/
theorem c2_from_dict_defaults (nm de pst dst : String)
    (len e1 e2 e3 e4 e5 e6 e7 e8 e9 e10 e11 e12 : ℚ)
    (o1 o2 o3 o4 o5 o6 o7 o8 o9 o10 o11 o12 : Option ℚ)
    (ot : String) (ph ch : ℚ) (ca now : String) :
    Scenario.from_dict
      (storedScenarioDoc nm de pst dst len e1 e2 e3 e4 e5 e6 e7 e8 e9 e10
        e11 e12 o1 o2 o3 o4 o5 o6 o7 o8 o9 o10 o11 o12 ot ph ch ca) now =
      .ok ⟨nm, de, pst, dst, len, e1, e2, e3, e4, e5, e6, e7, e8, e9, e10,
        e11, e12, o1.getD 1, o2.getD 0, o3.getD 1, o4.getD 0, o5.getD 0,
        o6.getD 0, o7.getD 0, o8.getD 0, o9.getD 0, o10.getD 1, o11.getD 0,
        o12.getD 0, "h", ot, .PYOMO, .CBC, .MONTHLY, ph, ch, ca, none⟩ := by
  simp only [storedScenarioDoc]
  refine from_dict_parts _ _ _ _ rfl rfl rfl rfl rfl rfl rfl ?_ ?_ ?_
  · rw [keysDistinct_iff_nodup, List.append_assoc]
    simp only [applyDefaults]
    refine nodup_insertMissing _ _ _ ?_ ?_
    · exact List.Nodup.sublist
        (List.Sublist.append
          (storedTop_keys_sublist nm de pst dst len e1 e2 e3 e4 e5 e6 e7 e8
            e9 e10 e11 e12 o1 o2 o3 o4 o5 o6 o7 o8 o9 o10 o11 o12)
          (List.Sublist.refl _))
        ((keysDistinct_iff_nodup _).mp storedDocKeys_distinct)
    · intro k hk
      simp only [scenarioDefaults, keysOf, List.map_cons, List.map_nil,
        List.mem_cons, List.not_mem_nil, or_false] at hk
      simp only [keysOf, List.map_cons, List.map_nil, keysOf_append]
      rcases hk with rfl | rfl | rfl | rfl | rfl | rfl | rfl | rfl | rfl | rfl | rfl | rfl <;>
        decide
  · rw [allValid_eq_true_iff]
    intro k hk
    rw [List.append_assoc] at hk
    rcases List.mem_append.mp hk with hk | hk
    · simp only [applyDefaults] at hk
      rcases mem_keysOf_insertMissing _ _ _ hk with hk | hk
      · exact (allValid_eq_true_iff _).mp storedBaseKeys_valid k
          ((storedTop_keys_sublist nm de pst dst len e1 e2 e3 e4 e5 e6 e7 e8
            e9 e10 e11 e12 o1 o2 o3 o4 o5 o6 o7 o8 o9 o10 o11 o12).subset hk)
      · exact (allValid_eq_true_iff _).mp scenarioDefaults_keys_valid k hk
    · simp only [keysOf, List.map_cons, List.map_nil, keysOf_append,
        List.mem_append, List.mem_cons, List.not_mem_nil, or_false] at hk
      rcases hk with (rfl | rfl | rfl | rfl | rfl | rfl) | (rfl | rfl) <;>
        simp [memKey, scenarioFieldNames]
  · refine buildScenario_parts _ _ _ _ _ ?_ ?_ ?_ ?_ ?_ ?_ ?_ ?_ ?_ ?_ ?_ ?_
      ?_ ?_ ?_ ?_ ?_ ?_ ?_ ?_ ?_ ?_ ?_ ?_ ?_ ?_ ?_ ?_ ?_ ?_ ?_ ?_ ?_ ?_ ?_
    all_goals try
      (simp only [reqStr, reqNum, optStr, optNum, optCreated, optResults,
          lookupA_append, applyDefaults, lookupA_insertMissing,
          scenarioDefaults_keys_distinct]
       simp only [scenarioDefaults, storedTop, lookupA_append,
          lookupA_optEntry, lookupA, List.append_eq, List.nil_append,
          String.reduceBEq, beq_self_eq_true, cond_true, cond_false,
          Option.map_some', Option.map_none', Option.getD_some,
          Option.getD_none]
       done)
    · rcases o1 with _ | q <;>
      · simp only [reqStr, reqNum, optStr, optNum, optCreated, optResults,
          lookupA_append, applyDefaults, lookupA_insertMissing,
          scenarioDefaults_keys_distinct]
        simp only [scenarioDefaults, storedTop, lookupA_append,
          lookupA_optEntry, lookupA, List.append_eq, List.nil_append,
          String.reduceBEq, beq_self_eq_true, cond_true, cond_false,
          Option.map_some', Option.map_none', Option.getD_some,
          Option.getD_none]
    · rcases o2 with _ | q <;>
      · simp only [reqStr, reqNum, optStr, optNum, optCreated, optResults,
          lookupA_append, applyDefaults, lookupA_insertMissing,
          scenarioDefaults_keys_distinct]
        simp only [scenarioDefaults, storedTop, lookupA_append,
          lookupA_optEntry, lookupA, List.append_eq, List.nil_append,
          String.reduceBEq, beq_self_eq_true, cond_true, cond_false,
          Option.map_some', Option.map_none', Option.getD_some,
          Option.getD_none]
    · rcases o3 with _ | q <;>
      · simp only [reqStr, reqNum, optStr, optNum, optCreated, optResults,
          lookupA_append, applyDefaults, lookupA_insertMissing,
          scenarioDefaults_keys_distinct]
        simp only [scenarioDefaults, storedTop, lookupA_append,
          lookupA_optEntry, lookupA, List.append_eq, List.nil_append,
          String.reduceBEq, beq_self_eq_true, cond_true, cond_false,
          Option.map_some', Option.map_none', Option.getD_some,
          Option.getD_none]
    · rcases o4 with _ | q <;>
      · simp only [reqStr, reqNum, optStr, optNum, optCreated, optResults,
          lookupA_append, applyDefaults, lookupA_insertMissing,
          scenarioDefaults_keys_distinct]
        simp only [scenarioDefaults, storedTop, lookupA_append,
          lookupA_optEntry, lookupA, List.append_eq, List.nil_append,
          String.reduceBEq, beq_self_eq_true, cond_true, cond_false,
          Option.map_some', Option.map_none', Option.getD_some,
          Option.getD_none]
    · rcases o5 with _ | q <;>
      · simp only [reqStr, reqNum, optStr, optNum, optCreated, optResults,
          lookupA_append, applyDefaults, lookupA_insertMissing,
          scenarioDefaults_keys_distinct]
        simp only [scenarioDefaults, storedTop, lookupA_append,
          lookupA_optEntry, lookupA, List.append_eq, List.nil_append,
          String.reduceBEq, beq_self_eq_true, cond_true, cond_false,
          Option.map_some', Option.map_none', Option.getD_some,
          Option.getD_none]
    · rcases o6 with _ | q <;>
      · simp only [reqStr, reqNum, optStr, optNum, optCreated, optResults,
          lookupA_append, applyDefaults, lookupA_insertMissing,
          scenarioDefaults_keys_distinct]
        simp only [scenarioDefaults, storedTop, lookupA_append,
          lookupA_optEntry, lookupA, List.append_eq, List.nil_append,
          String.reduceBEq, beq_self_eq_true, cond_true, cond_false,
          Option.map_some', Option.map_none', Option.getD_some,
          Option.getD_none]
    · rcases o7 with _ | q <;>
      · simp only [reqStr, reqNum, optStr, optNum, optCreated, optResults,
          lookupA_append, applyDefaults, lookupA_insertMissing,
          scenarioDefaults_keys_distinct]
        simp only [scenarioDefaults, storedTop, lookupA_append,
          lookupA_optEntry, lookupA, List.append_eq, List.nil_append,
          String.reduceBEq, beq_self_eq_true, cond_true, cond_false,
          Option.map_some', Option.map_none', Option.getD_some,
          Option.getD_none]
    · rcases o8 with _ | q <;>
      · simp only [reqStr, reqNum, optStr, optNum, optCreated, optResults,
          lookupA_append, applyDefaults, lookupA_insertMissing,
          scenarioDefaults_keys_distinct]
        simp only [scenarioDefaults, storedTop, lookupA_append,
          lookupA_optEntry, lookupA, List.append_eq, List.nil_append,
          String.reduceBEq, beq_self_eq_true, cond_true, cond_false,
          Option.map_some', Option.map_none', Option.getD_some,
          Option.getD_none]
    · rcases o9 with _ | q <;>
      · simp only [reqStr, reqNum, optStr, optNum, optCreated, optResults,
          lookupA_append, applyDefaults, lookupA_insertMissing,
          scenarioDefaults_keys_distinct]
        simp only [scenarioDefaults, storedTop, lookupA_append,
          lookupA_optEntry, lookupA, List.append_eq, List.nil_append,
          String.reduceBEq, beq_self_eq_true, cond_true, cond_false,
          Option.map_some', Option.map_none', Option.getD_some,
          Option.getD_none]
    · rcases o10 with _ | q <;>
      · simp only [reqStr, reqNum, optStr, optNum, optCreated, optResults,
          lookupA_append, applyDefaults, lookupA_insertMissing,
          scenarioDefaults_keys_distinct]
        simp only [scenarioDefaults, storedTop, lookupA_append,
          lookupA_optEntry, lookupA, List.append_eq, List.nil_append,
          String.reduceBEq, beq_self_eq_true, cond_true, cond_false,
          Option.map_some', Option.map_none', Option.getD_some,
          Option.getD_none]
    · rcases o11 with _ | q <;>
      · simp only [reqStr, reqNum, optStr, optNum, optCreated, optResults,
          lookupA_append, applyDefaults, lookupA_insertMissing,
          scenarioDefaults_keys_distinct]
        simp only [scenarioDefaults, storedTop, lookupA_append,
          lookupA_optEntry, lookupA, List.append_eq, List.nil_append,
          String.reduceBEq, beq_self_eq_true, cond_true, cond_false,
          Option.map_some', Option.map_none', Option.getD_some,
          Option.getD_none]
    · rcases o12 with _ | q <;>
      · simp only [reqStr, reqNum, optStr, optNum, optCreated, optResults,
          lookupA_append, applyDefaults, lookupA_insertMissing,
          scenarioDefaults_keys_distinct]
        simp only [scenarioDefaults, storedTop, lookupA_append,
          lookupA_optEntry, lookupA, List.append_eq, List.nil_append,
          String.reduceBEq, beq_self_eq_true, cond_true, cond_false,
          Option.map_some', Option.map_none', Option.getD_some,
          Option.getD_none]

end GreenLogix

namespace GreenLogix

/-- Replace the value stored under a key, keeping its position (Python
setattr on the object stored in the dict). -/
def modifyA {α : Type} : AList α → String → (α → α) → AList α
  | [], _, _ => []
  | (k', v) :: rest, k, f =>
    cond (k' == k) ((k', f v) :: rest) ((k', v) :: modifyA rest k f)

/-- In-memory ScenarioManager state together with the content of the
backing scenarios file; none models a file that does not exist. -/
structure ManagerState where
  scenarios : AList Scenario
  file : Option (AList ScenarioDoc)
deriving DecidableEq

/-- Serialization of the whole in-memory collection as written by
save_scenarios: data = name to scenario.to_dict() for every scenario. -/
def serializeAll (l : AList Scenario) : AList ScenarioDoc :=
  l.map (fun kv => (kv.1, kv.2.to_dict))

/-- ScenarioManager.save_scenarios: rewrite the whole backing file with
the serialization of the entire in-memory collection. -/
def save_scenarios (m : ManagerState) : ManagerState :=
  { m with file := some (serializeAll m.scenarios) }

/-- ScenarioManager.add_scenario: assign under the scenario name, then
save. -/
def add_scenario (m : ManagerState) (s : Scenario) : ManagerState :=
  save_scenarios { m with scenarios := dictSet m.scenarios s.name s }

/-- ScenarioManager.get_scenario: dict.get, an absence sentinel instead of
an exception. -/
def get_scenario (m : ManagerState) (name : String) : Option Scenario :=
  lookupA m.scenarios name

/-- ScenarioManager.update_scenario: when the name is present, apply the
keyword updates (modelled as a function on the record) and save;
otherwise do nothing. -/
def update_scenario (m : ManagerState) (name : String)
    (upd : Scenario → Scenario) : ManagerState :=
  cond (containsKey m.scenarios name)
    (save_scenarios { m with scenarios := modifyA m.scenarios name upd })
    m

/-- ScenarioManager.delete_scenario: when the name is present, remove it
and save; otherwise do nothing. -/
def delete_scenario (m : ManagerState) (name : String) : ManagerState :=
  cond (containsKey m.scenarios name)
    (save_scenarios { m with scenarios := eraseKey m.scenarios name })
    m

theorem lookupA_dictSet_self {α : Type} (d : AList α) (k : String) (v : α) :
    lookupA (dictSet d k v) k = some v := by
  induction d with
  | nil => simp [dictSet, lookupA]
  | cons hd tl ih =>
    obtain ⟨k', v'⟩ := hd
    by_cases h : k' = k
    · simp [dictSet, lookupA, h]
    · simp [dictSet, lookupA, beq_false_of_ne h, ih]

theorem length_dictSet_of_containsKey {α : Type} (d : AList α) (k : String)
    (v : α) (h : containsKey d k = true) :
    (dictSet d k v).length = d.length := by
  induction d with
  | nil => simp [containsKey, lookupA] at h
  | cons hd tl ih =>
    obtain ⟨k', v'⟩ := hd
    by_cases hk : k' = k
    · simp [dictSet, hk]
    · simp only [containsKey, lookupA, beq_false_of_ne hk, cond_false] at h
      simp [dictSet, beq_false_of_ne hk, ih h]

/-- Concrete Scenario record used as a witness input. -/
def sampleScenario : Scenario :=
  ⟨"base_case", "base case", "2025-01-01", "2022-01-01", 720,
   3275/1000, 3275/1000, 31/100, 31/100, 46/100, 46/100,
   85/100, 26, 1, 10, 1, 10,
   0, 0, 0, 0, 0, 0, 0, 0, 0, 0, 0, 0,
   "h", "default", .PYOMO, .CBC, .MONTHLY, 768, 768,
   "2025-01-01 00:00:00", none⟩

/-- C9: get_scenario returns the absence sentinel none for every name not
present in the collection and raises no exception; for a present name it
returns the stored Scenario, in particular the one just added under that
name. -/
theorem c9_get_scenario (m : ManagerState) (name : String) :
    (name ∉ keysOf m.scenarios → get_scenario m name = none) ∧
    (∀ s : Scenario, lookupA m.scenarios name = some s →
      get_scenario m name = some s) ∧
    (∀ s : Scenario, get_scenario (add_scenario m s) s.name = some s) := by
  refine ⟨?_, ?_, ?_⟩
  · intro h
    exact (lookupA_eq_none_iff m.scenarios name).mpr h
  · intro s h
    exact h
  · intro s
    exact lookupA_dictSet_self m.scenarios s.name s

/-- Witness for C9 at a concrete manager state. -/
theorem c9_get_scenario_witness :
    get_scenario ⟨[("base_case", sampleScenario)], none⟩ "missing" = none ∧
    get_scenario (add_scenario ⟨[], none⟩ sampleScenario)
      sampleScenario.name = some sampleScenario :=
  ⟨(c9_get_scenario ⟨[("base_case", sampleScenario)], none⟩ "missing").1
      (by decide),
   (c9_get_scenario ⟨[], none⟩ "missing").2.2 sampleScenario⟩

/-- C10: add_scenario with an already-present name silently replaces the
stored record, in memory (same collection size, lookup returns the new
record) and in the rewritten store; no duplicate-name error exists on
this path. -/
theorem c10_add_scenario_replaces (m : ManagerState) (s : Scenario)
    (h : containsKey m.scenarios s.name = true) :
    (add_scenario m s).scenarios.length = m.scenarios.length ∧
    get_scenario (add_scenario m s) s.name = some s ∧
    (add_scenario m s).file =
      some (serializeAll (add_scenario m s).scenarios) := by
  refine ⟨?_, ?_, rfl⟩
  · exact length_dictSet_of_containsKey m.scenarios s.name s h
  · exact lookupA_dictSet_self m.scenarios s.name s

/-- Witness for C10 at a concrete manager state holding the same name. -/
theorem c10_add_scenario_replaces_witness :
    (add_scenario ⟨[("base_case", sampleScenario)], none⟩
        sampleScenario).scenarios.length =
      ([("base_case", sampleScenario)] : AList Scenario).length ∧
    get_scenario (add_scenario ⟨[("base_case", sampleScenario)], none⟩
        sampleScenario) sampleScenario.name = some sampleScenario ∧
    (add_scenario ⟨[("base_case", sampleScenario)], none⟩
        sampleScenario).file =
      some (serializeAll (add_scenario ⟨[("base_case", sampleScenario)], none⟩
        sampleScenario).scenarios) :=
  c10_add_scenario_replaces ⟨[("base_case", sampleScenario)], none⟩
    sampleScenario (by decide)

/-- C7 counterexample: delete_scenario called on a fresh manager (no
backing file) with an absent name completes without writing anything, so
afterwards the persisted file does not contain the serialization of the
in-memory collection; the claim as stated fails for this mutating
operation call. -/
theorem c7_counterexample :
    ¬ ((delete_scenario ⟨[], none⟩ "missing").file =
        some (serializeAll (delete_scenario ⟨[], none⟩ "missing").scenarios)) := by
  decide

/-- C7 amended: add_scenario always rewrites the backing store with the
serialization of the entire in-memory collection, and update_scenario and
delete_scenario do so whenever the named scenario exists (a full
read-modify-write, never an incremental append); when the name is absent
they leave the manager, and hence the store, completely untouched. -/
theorem c7_full_rewrite (m : ManagerState) (s : Scenario) (name : String)
    (upd : Scenario → Scenario) :
    ((add_scenario m s).file =
      some (serializeAll (add_scenario m s).scenarios)) ∧
    (containsKey m.scenarios name = true →
      (update_scenario m name upd).file =
        some (serializeAll (update_scenario m name upd).scenarios)) ∧
    (containsKey m.scenarios name = true →
      (delete_scenario m name).file =
        some (serializeAll (delete_scenario m name).scenarios)) ∧
    (containsKey m.scenarios name = false → update_scenario m name upd = m) ∧
    (containsKey m.scenarios name = false → delete_scenario m name = m) := by
  refine ⟨rfl, ?_, ?_, ?_, ?_⟩
  · intro h
    simp [update_scenario, h, save_scenarios]
  · intro h
    simp [delete_scenario, h, save_scenarios]
  · intro h
    simp [update_scenario, h]
  · intro h
    simp [delete_scenario, h]

/-- Witness for the amended C7 at concrete manager states. -/
theorem c7_full_rewrite_witness :
    ((add_scenario ⟨[], none⟩ sampleScenario).file =
      some (serializeAll (add_scenario ⟨[], none⟩ sampleScenario).scenarios)) ∧
    ((update_scenario ⟨[("base_case", sampleScenario)], none⟩ "base_case"
        (fun x => x)).file =
      some (serializeAll (update_scenario ⟨[("base_case", sampleScenario)], none⟩
        "base_case" (fun x => x)).scenarios)) ∧
    ((delete_scenario ⟨[("base_case", sampleScenario)], none⟩
        "base_case").file =
      some (serializeAll (delete_scenario ⟨[("base_case", sampleScenario)], none⟩
        "base_case").scenarios)) ∧
    (update_scenario ⟨[("base_case", sampleScenario)], none⟩ "missing"
        (fun x => x) = ⟨[("base_case", sampleScenario)], none⟩) ∧
    (delete_scenario ⟨[("base_case", sampleScenario)], none⟩ "missing" =
      ⟨[("base_case", sampleScenario)], none⟩) :=
  ⟨(c7_full_rewrite ⟨[], none⟩ sampleScenario "x" (fun x => x)).1,
   (c7_full_rewrite ⟨[("base_case", sampleScenario)], none⟩ sampleScenario
      "base_case" (fun x => x)).2.1 (by decide),
   (c7_full_rewrite ⟨[("base_case", sampleScenario)], none⟩ sampleScenario
      "base_case" (fun x => x)).2.2.1 (by decide),
   (c7_full_rewrite ⟨[("base_case", sampleScenario)], none⟩ sampleScenario
      "missing" (fun x => x)).2.2.2.1 (by decide),
   (c7_full_rewrite ⟨[("base_case", sampleScenario)], none⟩ sampleScenario
      "missing" (fun x => x)).2.2.2.2 (by decide)⟩

end GreenLogix

namespace GreenLogix

namespace run_scenarios

/-- Boolean test that a run attempt raised an exception. -/
def isErr {ε α : Type} : Except ε α → Bool
  | .error _ => true
  | .ok _ => false

/-- Loop body of run_all_scenarios, simulation/run_scenarios.py lines 227
to 235: one try/except per scenario producing a success or failure line,
failures appended to failed_scenarios, the loop never aborting. -/
def runLoop (run : String → Except String Unit) :
    List String → List String × List (String × String)
  | [] => ([], [])
  | name :: rest =>
    match run name with
    | .ok _ =>
      let r := runLoop run rest
      (("Scenario " ++ name ++ " completed successfully") :: r.1, r.2)
    | .error e =>
      let r := runLoop run rest
      (("Scenario " ++ name ++ " failed with error: " ++ e) :: r.1,
        (name, e) :: r.2)

/-- Report of one batch execution: the per-scenario lines and the summary
count printed at the end. -/
structure BatchReport where
  lines : List String
  failed : List (String × String)
  successful_count : Nat
deriving DecidableEq

/-- run_all_scenarios of simulation/run_scenarios.py over the listed
scenario names, with run_scenario abstracted as an oracle that either
returns or raises; returns none on the early "No scenarios defined"
exit. -/
def run_all_scenarios (scenarios : List String)
    (run : String → Except String Unit) : Option BatchReport :=
  cond scenarios.isEmpty none
    (let r := runLoop run scenarios
     some { lines := r.1, failed := r.2,
            successful_count := scenarios.length - r.2.length })

theorem runLoop_lines_length (run : String → Except String Unit)
    (l : List String) : (runLoop run l).1.length = l.length := by
  induction l with
  | nil => rfl
  | cons name rest ih =>
    cases h : run name <;> simp [runLoop, h, ih]

theorem runLoop_failed_length (run : String → Except String Unit)
    (l : List String) :
    (runLoop run l).2.length = (l.filter (fun n => isErr (run n))).length := by
  induction l with
  | nil => rfl
  | cons name rest ih =>
    cases h : run name <;> simp [runLoop, h, ih, isErr, List.filter]

/-- C3: for every nonempty batch in which an arbitrary subset of the
scenario runs raises, the driver attempts every scenario (one
success/failure line per scenario, never aborting the batch), records
exactly the raising scenarios as failed, and reports a final summary
count equal to the number of scenarios minus the number that raised. -/
theorem c3_fault_isolation (scenarios : List String)
    (run : String → Except String Unit) (h : scenarios ≠ []) :
    ∃ r : BatchReport, run_all_scenarios scenarios run = some r ∧
      r.lines.length = scenarios.length ∧
      r.failed.length = (scenarios.filter (fun n => isErr (run n))).length ∧
      r.successful_count =
        scenarios.length - (scenarios.filter (fun n => isErr (run n))).length := by
  have hne : scenarios.isEmpty = false := by
    cases scenarios with
    | nil => exact absurd rfl h
    | cons a l => rfl
  refine ⟨{ lines := (runLoop run scenarios).1,
            failed := (runLoop run scenarios).2,
            successful_count :=
              scenarios.length - (runLoop run scenarios).2.length }, ?_, ?_, ?_, ?_⟩
  · simp only [run_all_scenarios, hne, cond_false]
  · exact runLoop_lines_length run scenarios
  · exact runLoop_failed_length run scenarios
  · simp only [runLoop_failed_length run scenarios]

/-- Witness for C3: a three-scenario batch in which exactly the middle
scenario raises yields three lines and a summary count of two. -/
theorem c3_fault_isolation_witness :
    (["a", "b", "c"] : List String) ≠ [] ∧
    (∃ r : BatchReport,
      run_all_scenarios ["a", "b", "c"]
          (fun n => cond (n == "b") (.error "boom") (.ok ())) = some r ∧
      r.lines.length = (["a", "b", "c"] : List String).length ∧
      r.failed.length = ((["a", "b", "c"] : List String).filter
        (fun n => isErr (cond (n == "b")
          (.error "boom" : Except String Unit) (.ok ())))).length ∧
      r.successful_count = (["a", "b", "c"] : List String).length -
        ((["a", "b", "c"] : List String).filter
          (fun n => isErr (cond (n == "b")
            (.error "boom" : Except String Unit) (.ok ())))).length) :=
  ⟨by decide,
   c3_fault_isolation ["a", "b", "c"]
     (fun n => cond (n == "b") (.error "boom") (.ok ())) (by decide)⟩

/-- Names bound in the module namespace of simulation/run_scenarios.py
when line 3 executes: only the os module imported on line 1.  The name
Path is not among them (pathlib is never imported in this module). -/
def boundBeforeChdir : List String := ["os"]

/-- Evaluation of a Python name: NameError when the name is unbound. -/
def evalName (env : List String) (n : String) : Except String Unit :=
  cond (memKey n env) (.ok ()) (.error ("NameError: " ++ n))

/-- Module top level of simulation/run_scenarios.py: import os (line 1),
then os.chdir(Path(__file__).parent.parent) (line 3), which evaluates the
name Path; only if that succeeds do the remaining imports and function
definitions execute, producing the final module namespace in which
run_scenario and run_all_scenarios are defined. -/
def moduleInit : Except String (List String) := do
  let _ ← evalName boundBeforeChdir "Path"
  pure (boundBeforeChdir ++
    ["datetime", "Scenario", "ScenarioManager", "define_scenarios",
     "get_data", "get_model", "dispatch", "save_results",
     "run_scenario", "run_all_scenarios"])

/-- C5: importing the batch driver module fails with a NameError on Path
before run_scenario or run_all_scenarios can be defined, because the
module top level calls os.chdir(Path(__file__).parent.parent) while Path
is never imported. -/
theorem c5_import_fails :
    moduleInit = .error ("NameError: " ++ "Path") := rfl

end run_scenarios

end GreenLogix

namespace GreenLogix

namespace analyse_results

/-- Cell value of the Scenarios.xlsx sheet as read by pandas: a number or
NaN (a blank cell). -/
inductive Cell where
  | num : ℚ → Cell
  | nan : Cell
deriving DecidableEq

/-- Row of the Scenarios sheet: the Name column plus the two numeric
columns read by get_toegangsvermogen_cost; none models an absent column,
for which row.get returns the default 0. -/
structure ScenarioRow where
  name : String
  elec_grid_cost_power_fixed : Option Cell
  e_boiler_capacity : Option Cell
deriving DecidableEq

/-- Python round on an exact rational: round half to even. -/
def pyRound (q : ℚ) : ℤ :=
  cond (decide (q - ⌊q⌋ < 1/2)) ⌊q⌋
    (cond (decide ((1:ℚ)/2 < q - ⌊q⌋)) (⌊q⌋ + 1)
      (cond (⌊q⌋ % 2 == 0) ⌊q⌋ (⌊q⌋ + 1)))

/-- get_toegangsvermogen_cost of analysis/analyse_results.py, over an
abstract read of simulation/Scenarios.xlsx: none models a missing file;
each row of the sheet keeps the three columns the function touches. -/
def get_toegangsvermogen_cost (store : Option (List ScenarioRow))
    (scenario_name : String) : ℤ :=
  match store with
  | none => 0
  | some df =>
    match df.find? (fun row => row.name == scenario_name) with
    | none => 0
    | some row =>
      match row.elec_grid_cost_power_fixed.getD (.num 0),
            row.e_boiler_capacity.getD (.num 0) with
      | .num a, .num b => pyRound (a * b * 1000 * 12)
      | _, _ => 0

theorem pyRound_intCast (n : ℤ) : pyRound ((n : ℤ) : ℚ) = n := by
  have hf : ⌊((n : ℤ) : ℚ)⌋ = n := Int.floor_intCast n
  simp only [pyRound, hf]
  norm_num

/-- C8: with elec_grid_cost_power_fixed 2.0 and e_boiler_capacity 5 the
computed additional cost is round(2.0 * 5 * 1000 * 12) = 120000; a
missing file, a scenario name with no matching row, an absent column and
a NaN cell all yield 0 instead of an error. -/
theorem c8_toegangsvermogen_cost (df : List ScenarioRow) (name : String)
    (h : df.find? (fun row => row.name == name) = none) :
    get_toegangsvermogen_cost
      (some [⟨"base_case", some (.num 2), some (.num 5)⟩]) "base_case" =
      120000 ∧
    get_toegangsvermogen_cost (some df) name = 0 ∧
    get_toegangsvermogen_cost none name = 0 ∧
    get_toegangsvermogen_cost
      (some [⟨"base_case", none, none⟩]) "base_case" = 0 ∧
    get_toegangsvermogen_cost
      (some [⟨"base_case", some .nan, some (.num 5)⟩]) "base_case" = 0 ∧
    get_toegangsvermogen_cost
      (some [⟨"base_case", some (.num 2), some .nan⟩]) "base_case" = 0 := by
  have h120 : ((2 : ℚ) * 5 * 1000 * 12) = ((120000 : ℤ) : ℚ) := by norm_num
  have h0 : ((0 : ℚ) * 0 * 1000 * 12) = ((0 : ℤ) : ℚ) := by norm_num
  refine ⟨?_, ?_, rfl, ?_, ?_, ?_⟩
  · simp only [get_toegangsvermogen_cost, List.find?, String.reduceBEq,
      beq_self_eq_true, cond_true, Option.getD_some, h120, pyRound_intCast]
  · simp only [get_toegangsvermogen_cost, h]
  · simp only [get_toegangsvermogen_cost, List.find?, String.reduceBEq,
      beq_self_eq_true, cond_true, Option.getD_none, h0, pyRound_intCast]
  · simp only [get_toegangsvermogen_cost, List.find?, String.reduceBEq,
      beq_self_eq_true, cond_true, Option.getD_some]
  · simp only [get_toegangsvermogen_cost, List.find?, String.reduceBEq,
      beq_self_eq_true, cond_true, Option.getD_some]

/-- Witness for C8 at a concrete empty sheet. -/
theorem c8_toegangsvermogen_cost_witness :
    get_toegangsvermogen_cost
      (some [⟨"base_case", some (.num 2), some (.num 5)⟩]) "base_case" =
      120000 ∧
    get_toegangsvermogen_cost (some ([] : List ScenarioRow)) "missing" = 0 ∧
    get_toegangsvermogen_cost none "missing" = 0 ∧
    get_toegangsvermogen_cost
      (some [⟨"base_case", none, none⟩]) "base_case" = 0 ∧
    get_toegangsvermogen_cost
      (some [⟨"base_case", some .nan, some (.num 5)⟩]) "base_case" = 0 ∧
    get_toegangsvermogen_cost
      (some [⟨"base_case", some (.num 2), some .nan⟩]) "base_case" = 0 :=
  c8_toegangsvermogen_cost [] "missing" rfl

end analyse_results

end GreenLogix

namespace GreenLogix

/-- Value held by one bindable slot of the assembled model: a time series
set through set_values or set_bounds with a per-timestep sequence, or a
scalar parameter. -/
inductive SlotVal where
  | ser : List ℚ → SlotVal
  | sc : ℚ → SlotVal
deriving DecidableEq

/-- State of the assembled component graph as touched by the binding
callbacks: one slot per component name and slot name (a port value
series, a conversion factor, or a lower/upper bound). -/
def ModelState : Type := String → String → SlotVal

/-- Mutation of one slot (set_values, set_conversion_factor, or one half
of set_bounds on the named component). -/
def setSlot (st : ModelState) (c p : String) (v : SlotVal) : ModelState :=
  fun c' p' => cond (c == c' && p == p') v (st c' p')

/-- Column access df[k].to_list() for a column known to be present. -/
def getCol (df : AList (List ℚ)) (k : String) : List ℚ :=
  (lookupA df k).getD []

/-- Parameter access params[k] for a key known to be present. -/
def getPar (ps : AList ℚ) (k : String) : ℚ :=
  (lookupA ps k).getD 0

namespace model_bis

/-- set_data of core/model_bis.py: the hand-written chain of presence
checks, each binding applied only when its column exists. -/
def set_data (st : ModelState) (df : AList (List ℚ)) : ModelState :=
  let st1 := cond (containsKey df "electricity_offtake_price")
    (setSlot st "Electricity offtake" "prices"
      (.ser (getCol df "electricity_offtake_price"))) st
  let st2 := cond (containsKey df "electricity_injection_price")
    (setSlot st1 "Electricity injection" "prices"
      (.ser (getCol df "electricity_injection_price"))) st1
  let st3 := cond (containsKey df "gas_price")
    (setSlot (setSlot st2 "Gas offtake" "prices"
        (.ser (getCol df "gas_price")))
      "start_up_cost" "prices"
      (.ser ((getCol df "gas_price").map (fun x => x * (1/10000))))) st2
  let st4 := cond (containsKey df "co2_price")
    (setSlot st3 "CO2 allowance" "prices" (.ser (getCol df "co2_price"))) st3
  let st5 := cond (containsKey df "heat_demand")
    (setSlot st4 "heat_demand" "demand" (.ser (getCol df "heat_demand"))) st4
  let st6 := cond (containsKey df "electricity_demand")
    (setSlot st5 "electricity_demand" "demand"
      (.ser (getCol df "electricity_demand"))) st5
  let st7 := cond (containsKey df "gas_turbine_minload_electricity_capacity")
    (let stA := setSlot st6 "chp" "min_electricity_output"
       (.ser (getCol df "gas_turbine_minload_electricity_capacity"))
     cond (containsKey df "gas_turbine_maxload_electricity_capacity")
       (setSlot stA "chp" "max_electricity_output"
         (.ser (List.zipWith (fun a b => a + b)
           (getCol df "gas_turbine_minload_electricity_capacity")
           (getCol df "gas_turbine_maxload_electricity_capacity"))))
       stA) st6
  let st8 := cond (containsKey df "pc_max_gas")
    (setSlot st7 "chp" "gas_to_aux_firing.ubound"
      (.ser (getCol df "pc_max_gas"))) st7
  let st9 := cond (containsKey df "gas_turbine_minload_electricity_efficiency")
    (setSlot st8 "chp" "min_electrical_efficiency"
      (.ser (getCol df "gas_turbine_minload_electricity_efficiency"))) st8
  cond (containsKey df "gas_turbine_maxload_electricity_efficiency")
    (setSlot st9 "chp" "max_electrical_efficiency"
      (.ser (getCol df "gas_turbine_maxload_electricity_efficiency"))) st9

/-- set_parameters of core/model_bis.py. -/
def set_parameters (st : ModelState) (ps : AList ℚ) : ModelState :=
  let st1 := cond (containsKey ps "gas_turbine_minload_heat_efficiency")
    (setSlot st "chp" "thermal_efficiency"
      (.sc (getPar ps "gas_turbine_minload_heat_efficiency"))) st
  let st2 := cond (containsKey ps "hrsg_efficiency")
    (setSlot st1 "chp" "aux_firing_efficiency"
      (.sc (getPar ps "hrsg_efficiency"))) st1
  let st3 := cond (containsKey ps "gas_boiler_efficiency")
    (setSlot st2 "gas_boiler" "conversion_factor"
      (.sc (getPar ps "gas_boiler_efficiency"))) st2
  let st4 := cond (containsKey ps "gas_boiler_capacity")
    (setSlot (setSlot st3 "gas_boiler" "output.lbound" (.sc 0))
      "gas_boiler" "output.ubound" (.sc (getPar ps "gas_boiler_capacity"))) st3
  let st5 := cond (containsKey ps "e_boiler_efficiency")
    (setSlot st4 "e_boiler" "conversion_factor"
      (.sc (getPar ps "e_boiler_efficiency"))) st4
  let st6 := cond (containsKey ps "e_boiler_capacity")
    (setSlot (setSlot st5 "e_boiler" "output.lbound" (.sc 0))
      "e_boiler" "output.ubound" (.sc (getPar ps "e_boiler_capacity"))) st5
  let st7 := cond (containsKey ps "penalty_for_gas_to_turbine")
    (setSlot st6 "penalty_for_gas_to_turbine" "prices"
      (.sc (getPar ps "penalty_for_gas_to_turbine"))) st6
  let st8 := cond (containsKey ps "penalty_turbine_no_shutdown")
    (setSlot st7 "penalty_turbine_no_shutdown" "prices"
      (.sc (getPar ps "penalty_turbine_no_shutdown"))) st7
  cond (containsKey ps "elec_grid_cost_power_peak")
    (setSlot st8 "captar" "prices"
      (.sc (getPar ps "elec_grid_cost_power_peak"))) st8

end model_bis

namespace model

/-- set_data of core/model.py. -/
def set_data (st : ModelState) (df : AList (List ℚ)) : ModelState :=
  let st1 := cond (containsKey df "offtake_price")
    (setSlot st "Electricity offtake" "prices"
      (.ser (getCol df "offtake_price"))) st
  let st2 := cond (containsKey df "injection_price")
    (setSlot st1 "Electricity injection" "prices"
      (.ser (getCol df "injection_price"))) st1
  let st3 := cond (containsKey df "gas_price")
    (setSlot st2 "Gas offtake" "prices" (.ser (getCol df "gas_price"))) st2
  let st4 := cond (containsKey df "co2_price")
    (setSlot st3 "CO2 allowance" "prices" (.ser (getCol df "co2_price"))) st3
  let st5 := cond (containsKey df "heat_demand")
    (setSlot st4 "heat_demand" "demand" (.ser (getCol df "heat_demand"))) st4
  let st6 := cond (containsKey df "electricity_demand")
    (setSlot st5 "electricity_demand" "demand"
      (.ser (getCol df "electricity_demand"))) st5
  let st7 := cond (containsKey df "gas_turbine_minload_electricity_efficiency")
    (setSlot st6 "gas_turbine_minload_electricity" "conversion_factor"
      (.ser (getCol df "gas_turbine_minload_electricity_efficiency"))) st6
  let st8 := cond (containsKey df "gas_turbine_maxload_electricity_efficiency")
    (setSlot st7 "gas_turbine_maxload_electricity" "conversion_factor"
      (.ser (getCol df "gas_turbine_maxload_electricity_efficiency"))) st7
  let st9 := cond (containsKey df "gas_turbine_minload_electricity_capacity")
    (setSlot (setSlot st8 "gas_turbine_minload_electricity" "output.lbound"
        (.ser (getCol df "gas_turbine_minload_electricity_capacity")))
      "gas_turbine_minload_electricity" "output.ubound"
      (.ser (getCol df "gas_turbine_minload_electricity_capacity"))) st8
  let st10 := cond (containsKey df "gas_turbine_maxload_electricity_capacity")
    (setSlot (setSlot st9 "gas_turbine_maxload_electricity" "output.lbound"
        (.sc 0))
      "gas_turbine_maxload_electricity" "output.ubound"
      (.ser (getCol df "gas_turbine_maxload_electricity_capacity"))) st9
  cond (containsKey df "hrsg_capacity")
    (setSlot (setSlot st10 "hrsg" "output.lbound" (.sc 0))
      "hrsg" "output.ubound" (.ser (getCol df "hrsg_capacity"))) st10

/-- set_parameters of core/model.py. -/
def set_parameters (st : ModelState) (ps : AList ℚ) : ModelState :=
  let st1 := cond (containsKey ps "gas_turbine_minload_heat_efficiency")
    (setSlot st "gas_turbine_minload_heat" "conversion_factor"
      (.sc (getPar ps "gas_turbine_minload_heat_efficiency"))) st
  let st2 := cond (containsKey ps "gas_turbine_maxload_heat_efficiency")
    (setSlot st1 "gas_turbine_maxload_heat" "conversion_factor"
      (.sc (getPar ps "gas_turbine_maxload_heat_efficiency"))) st1
  let st3 := cond (containsKey ps "hrsg_efficiency")
    (setSlot st2 "hrsg" "conversion_factor"
      (.sc (getPar ps "hrsg_efficiency"))) st2
  let st4 := cond (containsKey ps "gas_boiler_efficiency")
    (setSlot st3 "gas_boiler" "conversion_factor"
      (.sc (getPar ps "gas_boiler_efficiency"))) st3
  let st5 := cond (containsKey ps "gas_boiler_capacity")
    (setSlot (setSlot st4 "gas_boiler" "output.lbound" (.sc 0))
      "gas_boiler" "output.ubound" (.sc (getPar ps "gas_boiler_capacity"))) st4
  let st6 := cond (containsKey ps "e_boiler_efficiency")
    (setSlot st5 "e_boiler" "conversion_factor"
      (.sc (getPar ps "e_boiler_efficiency"))) st5
  cond (containsKey ps "e_boiler_capacity")
    (setSlot (setSlot st6 "e_boiler" "output.lbound" (.sc 0))
      "e_boiler" "output.ubound" (.sc (getPar ps "e_boiler_capacity"))) st6

end model

theorem cond_app (b : Bool) (f g : ModelState) (c p : String) :
    (cond b f g) c p = cond b (f c p) (g c p) := by
  cases b <;> rfl

theorem setSlot_app (st : ModelState) (c p : String) (v : SlotVal)
    (c' p' : String) :
    setSlot st c p v c' p' = cond (c == c' && p == p') v (st c' p') := rfl

/-- C4: with the column heat_demand absent from the tabular input, both
data-binding callbacks leave the demand port of the heat_demand Component
untouched and raise no error; likewise set_parameters leaves the
gas_boiler conversion factor untouched when its key is absent, and on an
input carrying none of the bound columns/keys every binding is skipped,
the state being returned unchanged (each binding fires only when its
column/key is present). -/
theorem c4_absent_column_skipped (st : ModelState) (df : AList (List ℚ))
    (ps : AList ℚ)
    (h1 : containsKey df "heat_demand" = false)
    (h2 : containsKey ps "gas_boiler_efficiency" = false) :
    model_bis.set_data st df "heat_demand" "demand" =
      st "heat_demand" "demand" ∧
    model.set_data st df "heat_demand" "demand" =
      st "heat_demand" "demand" ∧
    model_bis.set_parameters st ps "gas_boiler" "conversion_factor" =
      st "gas_boiler" "conversion_factor" ∧
    model.set_parameters st ps "gas_boiler" "conversion_factor" =
      st "gas_boiler" "conversion_factor" ∧
    model_bis.set_data st [] = st ∧
    model.set_data st [] = st ∧
    model_bis.set_parameters st [] = st ∧
    model.set_parameters st [] = st := by
  refine ⟨?_, ?_, ?_, ?_, rfl, rfl, rfl, rfl⟩
  · simp only [model_bis.set_data, cond_app, setSlot_app, String.reduceBEq,
      Bool.and_false, Bool.false_and, Bool.and_self, cond_false, h1,
      Bool.cond_self]
  · simp only [model.set_data, cond_app, setSlot_app, String.reduceBEq,
      Bool.and_false, Bool.false_and, Bool.and_self, cond_false, h1,
      Bool.cond_self]
  · simp only [model_bis.set_parameters, cond_app, setSlot_app,
      String.reduceBEq, Bool.and_false, Bool.false_and, Bool.and_self,
      cond_false, h2, Bool.cond_self]
  · simp only [model.set_parameters, cond_app, setSlot_app,
      String.reduceBEq, Bool.and_false, Bool.false_and, Bool.and_self,
      cond_false, h2, Bool.cond_self]

/-- Witness for C4 at a concrete state and inputs lacking the guarded
column and key. -/
theorem c4_absent_column_skipped_witness :
    model_bis.set_data (fun _ _ => SlotVal.sc 0) [("co2_price", [1])]
        "heat_demand" "demand" =
      (fun _ _ => SlotVal.sc 0 : ModelState) "heat_demand" "demand" ∧
    model.set_data (fun _ _ => SlotVal.sc 0) [("co2_price", [1])]
        "heat_demand" "demand" =
      (fun _ _ => SlotVal.sc 0 : ModelState) "heat_demand" "demand" ∧
    model_bis.set_parameters (fun _ _ => SlotVal.sc 0)
        [("hrsg_efficiency", 1)] "gas_boiler" "conversion_factor" =
      (fun _ _ => SlotVal.sc 0 : ModelState) "gas_boiler"
        "conversion_factor" ∧
    model.set_parameters (fun _ _ => SlotVal.sc 0)
        [("hrsg_efficiency", 1)] "gas_boiler" "conversion_factor" =
      (fun _ _ => SlotVal.sc 0 : ModelState) "gas_boiler"
        "conversion_factor" ∧
    model_bis.set_data (fun _ _ => SlotVal.sc 0) [] =
      (fun _ _ => SlotVal.sc 0 : ModelState) ∧
    model.set_data (fun _ _ => SlotVal.sc 0) [] =
      (fun _ _ => SlotVal.sc 0 : ModelState) ∧
    model_bis.set_parameters (fun _ _ => SlotVal.sc 0) [] =
      (fun _ _ => SlotVal.sc 0 : ModelState) ∧
    model.set_parameters (fun _ _ => SlotVal.sc 0) [] =
      (fun _ _ => SlotVal.sc 0 : ModelState) :=
  c4_absent_column_skipped (fun _ _ => SlotVal.sc 0) [("co2_price", [1])]
    [("hrsg_efficiency", 1)] (by rfl) (by rfl)

end GreenLogix

namespace GreenLogix

namespace graph

/-- Modelled from the spec: a directed Connection between two Ports, each
port identified by its owning component's name and the port name. -/
structure Conn where
  src : String × String
  dst : String × String
deriving DecidableEq

/-- Port identity comparison. -/
def portEq (a b : String × String) : Bool :=
  a.1 == b.1 && a.2 == b.2

/-- Modelled from the spec: Model.connect of the external model_to_flex
package records a directed edge; it fails with UnboundPortError when
either endpoint's owning component was not added first, and with
MultipleWriterError when the destination port already has an incoming
connection (the single-writer rule). -/
def connect (registered : List String) (conns : List Conn)
    (s d : String × String) : Except String (List Conn) :=
  cond (!(registered.contains s.1)) (.error "UnboundPortError")
    (cond (!(registered.contains d.1)) (.error "UnboundPortError")
      (cond (conns.any fun c => portEq c.dst d)
        (.error "MultipleWriterError")
        (.ok (conns ++ [Conn.mk s d]))))

/-- The connect-call sequence of an assembly file, starting from the given
connection set. -/
def connectAll (registered : List String)
    (pairs : List ((String × String) × (String × String)))
    (init : List Conn) : Except String (List Conn) :=
  pairs.foldlM (fun conns p => connect registered conns p.1 p.2) init

/-- Component names added by core/model.py, in m.add order. -/
def modelComponents : List String :=
  ["gas_turbine_minload_electricity", "gas_turbine_minload_heat",
   "gas_turbine_maxload_electricity", "gas_turbine_maxload_heat",
   "gas_boiler", "hrsg", "e_boiler", "Electricity offtake",
   "Electricity injection", "Gas offtake", "heat_demand",
   "electricity_demand", "heat_supply", "electricity_consumption",
   "gas_consumption", "electricity_supply", "CO2 allowance",
   "CO2_emission"]

/-- The m.connect argument pairs of core/model.py, in call order. -/
def modelConnectPairs :
    List ((String × String) × (String × String)) :=
  [(("Gas offtake", "quantities"), ("gas_consumption", "input")),
   (("gas_consumption", "output0"), ("gas_boiler", "input")),
   (("gas_consumption", "output1"),
    ("gas_turbine_minload_electricity", "input")),
   (("gas_consumption", "output1"), ("gas_turbine_minload_heat", "input")),
   (("gas_consumption", "output2"),
    ("gas_turbine_maxload_electricity", "input")),
   (("gas_consumption", "output2"), ("gas_turbine_maxload_heat", "input")),
   (("gas_consumption", "output3"), ("hrsg", "input")),
   (("Gas offtake", "quantities"), ("CO2_emission", "input")),
   (("CO2_emission", "output"), ("CO2 allowance", "quantities")),
   (("gas_turbine_minload_heat", "output"), ("heat_supply", "input0")),
   (("gas_turbine_maxload_heat", "output"), ("heat_supply", "input1")),
   (("gas_boiler", "output"), ("heat_supply", "input2")),
   (("e_boiler", "output"), ("heat_supply", "input3")),
   (("hrsg", "output"), ("heat_supply", "input4")),
   (("heat_supply", "output"), ("heat_demand", "supply")),
   (("Electricity offtake", "quantities"),
    ("electricity_consumption", "input0")),
   (("gas_turbine_minload_electricity", "output"),
    ("electricity_consumption", "input1")),
   (("gas_turbine_maxload_electricity", "output"),
    ("electricity_consumption", "input2")),
   (("electricity_consumption", "output"), ("electricity_supply", "input")),
   (("electricity_supply", "output0"), ("electricity_demand", "supply")),
   (("electricity_supply", "output1"), ("e_boiler", "input")),
   (("electricity_supply", "output2"),
    ("Electricity injection", "quantities"))]

/-- Component names added by core/model_bis.py, in m.add order. -/
def modelBisComponents : List String :=
  ["gas_boiler", "chp", "e_boiler", "Electricity offtake",
   "Electricity injection", "Gas offtake", "heat_demand",
   "electricity_demand", "heat_supply", "electricity_consumption",
   "gas_consumption", "electricity_supply", "CO2 allowance",
   "CO2_emission", "start_up_cost", "penalty_for_gas_to_turbine",
   "penalty_turbine_no_shutdown", "captar"]

/-- The m.connect argument pairs of core/model_bis.py, in call order. -/
def modelBisConnectPairs :
    List ((String × String) × (String × String)) :=
  [(("Gas offtake", "quantities"), ("CO2_emission", "input")),
   (("CO2_emission", "output"), ("CO2 allowance", "quantities")),
   (("Gas offtake", "quantities"), ("gas_consumption", "input")),
   (("gas_consumption", "output0"), ("gas_boiler", "input")),
   (("gas_consumption", "output1"), ("chp", "gas_in")),
   (("chp", "thermal_output"), ("heat_supply", "input0")),
   (("gas_boiler", "output"), ("heat_supply", "input1")),
   (("e_boiler", "output"), ("heat_supply", "input2")),
   (("heat_supply", "output"), ("heat_demand", "supply")),
   (("chp", "electricity_output"), ("electricity_consumption", "input0")),
   (("Electricity offtake", "quantities"),
    ("electricity_consumption", "input1")),
   (("electricity_consumption", "output"), ("electricity_supply", "input")),
   (("electricity_supply", "output0"), ("electricity_demand", "supply")),
   (("electricity_supply", "output1"), ("e_boiler", "input")),
   (("electricity_supply", "output2"),
    ("Electricity injection", "quantities")),
   (("chp", "is_starting_up"), ("start_up_cost", "quantities")),
   (("chp", "gas_to_turbine"),
    ("penalty_for_gas_to_turbine", "quantities")),
   (("chp", "is_on"), ("penalty_turbine_no_shutdown", "quantities")),
   (("Electricity offtake", "quantities"), ("captar", "quantities"))]

/-- The connection set an assembly produces when every call succeeds. -/
def connsOf (pairs : List ((String × String) × (String × String))) :
    List Conn :=
  pairs.map fun p => Conn.mk p.1 p.2

theorem connect_ok (reg : List String) (conns : List Conn)
    (s d : String × String)
    (hs : reg.contains s.1 = true) (hd : reg.contains d.1 = true)
    (hfree : (conns.any fun c => portEq c.dst d) = false) :
    connect reg conns s d = .ok (conns ++ [Conn.mk s d]) := by
  simp only [connect, hs, hd, hfree, Bool.not_true, cond_false]

theorem connectAll_ok (reg : List String)
    (pairs : List ((String × String) × (String × String)))
    (init : List Conn)
    (hreg : ∀ p ∈ pairs,
      reg.contains p.1.1 = true ∧ reg.contains p.2.1 = true)
    (hinit : ∀ p ∈ pairs, (init.any fun c => portEq c.dst p.2) = false)
    (hpair : pairs.Pairwise fun p q => portEq p.2 q.2 = false) :
    connectAll reg pairs init = .ok (init ++ connsOf pairs) := by
  induction pairs generalizing init with
  | nil =>
    simp only [connectAll, List.foldlM_nil, connsOf, List.map_nil,
      List.append_nil]
    rfl
  | cons p ps ih =>
    have hp := hreg p (List.mem_cons_self p ps)
    have hstep : connect reg init p.1 p.2 = .ok (init ++ [Conn.mk p.1 p.2]) :=
      connect_ok reg init p.1 p.2 hp.1 hp.2
        (hinit p (List.mem_cons_self p ps))
    have htail : connectAll reg ps (init ++ [Conn.mk p.1 p.2]) =
        .ok ((init ++ [Conn.mk p.1 p.2]) ++ connsOf ps) := by
      refine ih (init ++ [Conn.mk p.1 p.2])
        (fun q hq => hreg q (List.mem_cons_of_mem p hq)) ?_
        (List.Pairwise.sublist (List.sublist_cons_self p ps) hpair)
      intro q hq
      have h1 := hinit q (List.mem_cons_of_mem p hq)
      have h2 := (List.pairwise_cons.mp hpair).1 q hq
      simp only [List.any_append, h1, List.any_cons, List.any_nil, h2,
        Bool.or_false, Bool.false_or]
    have hfirst : connectAll reg (p :: ps) init =
        connectAll reg ps (init ++ [Conn.mk p.1 p.2]) := by
      simp only [connectAll, List.foldlM_cons, hstep]
      rfl
    rw [hfirst, htail]
    simp [connsOf, List.append_assoc]

theorem connect_second_writer_fails (reg : List String)
    (conns : List Conn) (s1 s2 d : String × String)
    (hs : reg.contains s2.1 = true) (hd : reg.contains d.1 = true) :
    connect reg (conns ++ [Conn.mk s1 d]) s2 d = .error "MultipleWriterError" := by
  have hdst : ((conns ++ [Conn.mk s1 d]).any fun c => portEq c.dst d) = true := by
    simp [List.any_append, portEq]
  simp only [connect, hs, hd, hdst, Bool.not_true, cond_false, cond_true]

set_option maxHeartbeats 1000000 in
/-- C6: in the assembled graphs of model.py and model_bis.py every
connect call succeeds, each destination port receives at most one
incoming connection (the destination lists are duplicate-free) while the
gas (resp. electricity) offtake quantities port feeds two connections;
and in general a second connect into an already-written destination
fails with MultipleWriterError while a connect into a fresh destination
succeeds. -/
theorem c6_single_writer :
    connectAll modelComponents modelConnectPairs [] =
      .ok (connsOf modelConnectPairs) ∧
    connectAll modelBisComponents modelBisConnectPairs [] =
      .ok (connsOf modelBisConnectPairs) ∧
    ((connsOf modelConnectPairs).map Conn.dst).Nodup ∧
    ((connsOf modelBisConnectPairs).map Conn.dst).Nodup ∧
    ((connsOf modelConnectPairs).filter fun c =>
      portEq c.src ("Gas offtake", "quantities")).length = 2 ∧
    ((connsOf modelBisConnectPairs).filter fun c =>
      portEq c.src ("Electricity offtake", "quantities")).length = 2 ∧
    (∀ reg conns s1 s2 d, reg.contains s2.1 = true →
      reg.contains d.1 = true →
      connect reg (conns ++ [Conn.mk s1 d]) s2 d =
        .error "MultipleWriterError") ∧
    (∀ reg conns s d, reg.contains s.1 = true → reg.contains d.1 = true →
      (conns.any fun c => portEq c.dst d) = false →
      connect reg conns s d = .ok (conns ++ [Conn.mk s d])) := by
  refine ⟨?_, ?_, by decide, by decide, by decide, by decide,
    fun reg conns s1 s2 d hs hd =>
      connect_second_writer_fails reg conns s1 s2 d hs hd,
    fun reg conns s d hs hd hf => connect_ok reg conns s d hs hd hf⟩
  · exact connectAll_ok _ _ _ (by decide) (by decide) (by decide)
  · exact connectAll_ok _ _ _ (by decide) (by decide) (by decide)

/-- Witness for C6 at concrete ports: the second write into an occupied
destination fails, a write into a fresh destination succeeds. -/
theorem c6_single_writer_witness :
    connect ["a", "b"] [Conn.mk ("a", "out") ("b", "in")]
      ("a", "out2") ("b", "in") = .error "MultipleWriterError" ∧
    connect ["a", "b"] [] ("a", "out") ("b", "in") =
      .ok [Conn.mk ("a", "out") ("b", "in")] := by
  refine ⟨?_, ?_⟩
  · exact c6_single_writer.2.2.2.2.2.2.1 ["a", "b"] []
      ("a", "out") ("a", "out2") ("b", "in") (by decide) (by decide)
  · exact c6_single_writer.2.2.2.2.2.2.2 ["a", "b"] []
      ("a", "out") ("b", "in") (by decide) (by decide) (by decide)

end graph

end GreenLogix
